import Mathlib

/-!
# Ultrasound pen tracker: embedding of `commands.c` and `main.c`

Shallow embedding of the estimator / trilateration code (`src/utils/src/commands.c`)
and of the interrupt handlers (`src/main.c`, `src/bsplib/src/timer.c`).

Conventions.
* `uint32_t` values are natural numbers; every place where the C arithmetic can
  wrap is written with an explicit `% 2 ^ 32`.
* `int32_t` values are integers.
* `double` values are exact rationals and the scale `0.008575` is the rational
  `343/40000`. The coordinates computed by `calculate_coordinates` are integer
  valued and far below `2 ^ 53`, so for them the rational value is the value of
  the `double`.
* Text output is represented by the values that are formatted, not by the
  characters.
-/

namespace PenTracker

/-! ## Constants (`commands.h`, `eeprom_memory_map.h`, `commands.c`) -/

/-- Header constant `MAX_AVERAGES`. -/
def MAX_AVERAGES : Nat := 10

/-- Header constant `MAX_FIFO_SIZE`. -/
def MAX_FIFO_SIZE : Nat := 20

def CRD_AX : Nat := 0
def CRD_AY : Nat := 1
def CRD_BX : Nat := 2
def CRD_BY : Nat := 3
def CRD_CX : Nat := 4
def CRD_CY : Nat := 5
def FIX_X : Nat := 6
def FIX_Y : Nat := 7
def TC_AVG : Nat := 21

/-- The scale `0.008575` mm per timer tick. -/
def CONVERSION_CONSTANT : ℚ := 8575 / 1000000

/-! ## Machine integers -/

/-- Conversion of an integer to `uint32_t`. -/
def toU32 (z : Int) : Nat := (z % 2 ^ 32).toNat

/-- Conversion of a `uint32_t` word to `int32_t` (two's complement). -/
def toInt32 (n : Nat) : Int :=
  if n % 2 ^ 32 < 2 ^ 31 then ((n % 2 ^ 32 : Nat) : Int) else ((n % 2 ^ 32 : Nat) : Int) - 2 ^ 32

/-- Unsigned 32-bit subtraction. -/
def subU32 (a b : Nat) : Nat := (a % 2 ^ 32 + 2 ^ 32 - b % 2 ^ 32) % 2 ^ 32

/-- Unsigned 32-bit addition. -/
def addU32 (a b : Nat) : Nat := (a + b) % 2 ^ 32

/-- Unsigned 32-bit multiplication. -/
def mulU32 (a b : Nat) : Nat := (a * b) % 2 ^ 32

/-! ## Calibration store -/

/-- Modelled from the spec: the EEPROM driver (`eeprom.h`, `readEeprom`,
`writeEeprom`) is not part of the sources; the store is a map from word
address to 32-bit word (the key-value calibration store of the external
interfaces section). -/
abbrev Eeprom := Nat → Nat

/-- Modelled from the spec: `readEeprom(add)` returns the stored word as a
`uint32_t` (every caller assigns or compares it as an unsigned word). -/
def readEeprom (e : Eeprom) (add : Nat) : Nat := e add % 2 ^ 32

/-- Modelled from the spec: `writeEeprom(add, data)` stores the `uint32_t`
word `data` at `add`. -/
def writeEeprom (e : Eeprom) (add data : Nat) : Eeprom :=
  fun k => if k = add then data % 2 ^ 32 else e k

/-- A sample buffer `uint32_t fifo[MAX_FIFO_SIZE]`, as a map from index to word. -/
abbrev Fifo := Nat → Nat

/-! ## State of `commands.c` -/

/-- The globals of `commands.c` together with the calibration store. -/
structure CmdState where
  eeprom : Eeprom
  g_average_A : ℚ
  g_average_B : ℚ
  g_average_C : ℚ
  g_distance_A : Nat
  g_distance_B : Nat
  g_distance_C : Nat
  g_values_acceptable : Bool

/-- The macro `ASSERT(value)` of `commands.c`:
`if (value <= 1 || value > MAX_AVERAGES) value = 1;`. -/
def ASSERT (value : Nat) : Nat :=
  if value ≤ 1 ∨ value > MAX_AVERAGES then 1 else value

/-- The accumulator of the summing loop of `calculate_distance` after `n`
iterations. -/
def sumLoop (fifo : Fifo) : Nat → ℚ
  | 0 => 0
  | n + 1 => sumLoop fifo n + (fifo n : ℚ)

/-- Conversion of a non-negative `double` to `uint32_t`: truncation. -/
def truncU32 (q : ℚ) : Nat := (Rat.floor q).toNat

/-- The function `calculate_distance` (the printing of the three distances is
not part of the state). -/
def calculate_distance (s : CmdState) (fifoA fifoB fifoC : Fifo) : CmdState :=
  let value_count := ASSERT (readEeprom s.eeprom TC_AVG)
  let avgA := sumLoop fifoA value_count / (value_count : ℚ)
  let avgB := sumLoop fifoB value_count / (value_count : ℚ)
  let avgC := sumLoop fifoC value_count / (value_count : ℚ)
  { s with
    g_average_A := avgA
    g_average_B := avgB
    g_average_C := avgC
    g_distance_A := truncU32 (avgA * CONVERSION_CONSTANT)
    g_distance_B := truncU32 (avgB * CONVERSION_CONSTANT)
    g_distance_C := truncU32 (avgC * CONVERSION_CONSTANT) }

/-- The accumulator `numerator_X` of the loop of `calculate_variance` after `n`
iterations, for the cached distance `dist`. -/
def numeratorLoop (fifo : Fifo) (dist : Nat) : Nat → ℚ
  | 0 => 0
  | n + 1 =>
    let bob := (fifo n : ℚ) * CONVERSION_CONSTANT - (dist : ℚ)
    numeratorLoop fifo dist n + bob * bob

/-- What `calculate_variance` leaves behind: the globals and the three
variances it prints. -/
structure VarianceResult where
  state : CmdState
  variance_A : ℚ
  variance_B : ℚ
  variance_C : ℚ

/-- The acceptance test of `calculate_variance`:
`variance_A <= 10 && variance_B <= 10 && variance_C <= 10`. -/
def varianceGate (variance_A variance_B variance_C : ℚ) : Bool :=
  decide (variance_A ≤ 10) && decide (variance_B ≤ 10) && decide (variance_C ≤ 10)

/-- The function `calculate_variance`. The first test reads `g_distance_A`,
`g_distance_C` and `g_distance_C` again, as in the source. -/
def calculate_variance (s : CmdState) (fifoA fifoB fifoC : Fifo) : VarianceResult :=
  let s1 :=
    if s.g_distance_A = 0 ∨ s.g_distance_C = 0 ∨ s.g_distance_C = 0 then
      calculate_distance s fifoA fifoB fifoC
    else s
  let value_count := ASSERT (readEeprom s1.eeprom TC_AVG)
  let variance_A := numeratorLoop fifoA s1.g_distance_A value_count / (value_count : ℚ)
  let variance_B := numeratorLoop fifoB s1.g_distance_B value_count / (value_count : ℚ)
  let variance_C := numeratorLoop fifoC s1.g_distance_C value_count / (value_count : ℚ)
  let s2 :=
    if varianceGate variance_A variance_B variance_C then
      { s1 with g_values_acceptable := true }
    else s1
  { state := s2, variance_A := variance_A, variance_B := variance_B, variance_C := variance_C }

/-- Outcome of `calculate_coordinates`: either the pair `(x, y)` that is
formatted for the terminal and the display, or the rejection message
"Variance out of bounds". -/
inductive CoordReport where
  | position (x y : Int)
  | varianceOutOfBounds
  deriving DecidableEq, Repr

/-- The separation `D1`: `int32_t D1 = readEeprom(CRD_BY) - readEeprom(CRD_AY)`
followed by `if (D1 <= 0 || D1 >= 200) D1 = 200;`. -/
def geometryD1 (e : Eeprom) : Int :=
  let D1 := toInt32 (subU32 (readEeprom e CRD_BY) (readEeprom e CRD_AY))
  if D1 ≤ 0 ∨ D1 ≥ 200 then 200 else D1

/-- The separation `D2`: `int32_t D2 = readEeprom(CRD_CX) - readEeprom(CRD_BX)`
followed by `if (D2 <= 0 || D2 >= 300) D2 = 300;`. -/
def geometryD2 (e : Eeprom) : Int :=
  let D2 := toInt32 (subU32 (readEeprom e CRD_CX) (readEeprom e CRD_BX))
  if D2 ≤ 0 ∨ D2 >= 300 then 300 else D2

/-- The expression
`((D * D) + (g_distance_B * g_distance_B) - (g_distance_X * g_distance_X)) / (2 * D)`.
`D` is an `int32_t` between 1 and 300, the distances are `uint32_t`, so the
products of distances, the sum, the difference and the division are all
unsigned 32-bit operations. -/
def solveAxis (D : Int) (distB distX : Nat) : Nat :=
  subU32 (addU32 (toU32 (D * D)) (mulU32 distB distB)) (mulU32 distX distX) / toU32 (2 * D)

/-- The function `calculate_coordinates`. The quotients are converted to
`double`, then the stored fix words, converted from `uint32_t` to `double`,
are subtracted. -/
def calculate_coordinates (s : CmdState) : CoordReport :=
  if s.g_values_acceptable then
    let D1 := geometryD1 s.eeprom
    let D2 := geometryD2 s.eeprom
    let y : Int := (solveAxis D1 s.g_distance_B s.g_distance_A : Int)
    let x : Int := (solveAxis D2 s.g_distance_B s.g_distance_C : Int)
    let x := x - (readEeprom s.eeprom FIX_X : Int)
    let y := y - (readEeprom s.eeprom FIX_Y : Int)
    CoordReport.position x y
  else
    CoordReport.varianceOutOfBounds

/-- The function `update_fix`: both `int32_t` arguments are passed to
`writeEeprom`, whose data parameter is a `uint32_t`. -/
def update_fix (s : CmdState) (x_fix y_fix : Int) : CmdState :=
  { s with eeprom := writeEeprom (writeEeprom s.eeprom FIX_X (toU32 x_fix)) FIX_Y (toU32 y_fix) }

/-- The globals of `commands.c` at power-on, over a given calibration store. -/
def powerOn (e : Eeprom) : CmdState :=
  { eeprom := e
    g_average_A := 0
    g_average_B := 0
    g_average_C := 0
    g_distance_A := 0
    g_distance_B := 0
    g_distance_C := 0
    g_values_acceptable := false }

/-! ## State of `main.c` and of the timer block -/

/-- The enumeration `beep_t` of `commands.h`: the feedback categories. -/
inductive beep_t where
  | BEEP_IR_INT
  | BEEP_US_A_INT
  | BEEP_US_B_INT
  | BEEP_US_C_INT
  | BEEP_ERROR
  | BEEP_START
  deriving DecidableEq, Repr

/-- The three LED pins `(LED_R, LED_G, LED_B)`. -/
abbrev Led := Bool × Bool × Bool

def LED_CLEAR : Led := (false, false, false)
def LED_SENSOR_A : Led := (false, true, true)
def LED_SENSOR_B : Led := (true, false, true)
def LED_SENSOR_C : Led := (true, true, false)
def LED_TIMEOUT : Led := (true, false, false)
def LED_IR_SENSOR : Led := (false, false, true)

/-- The globals of `main.c`, the enable bits and value registers of the wide
timers the handlers touch, the LED pins and the log of the categories handed
to `beep_now`. -/
structure IsrState where
  g_timer_A_accumulated : Nat
  g_timer_B_accumulated : Nat
  g_timer_C_accumulated : Nat
  count : Nat
  g_timer_A_FIFO : Fifo
  g_timer_B_FIFO : Fifo
  g_timer_C_FIFO : Fifo
  ir_in : Bool
  sA_in : Bool
  sB_in : Bool
  sC_in : Bool
  WTIMER0_TAEN : Bool
  WTIMER0_TBEN : Bool
  WTIMER1_TAEN : Bool
  WTIMER3_TAEN : Bool
  WTIMER0_TAV : Nat
  WTIMER0_TBV : Nat
  WTIMER1_TAV : Nat
  led : Led
  beeps : List beep_t

/-- The function `timer_init` of `timer.c`, on the modelled registers: each of
the four timers is disabled before it is configured and the three capture value
registers are cleared. -/
def timer_init (s : IsrState) : IsrState :=
  { s with
    WTIMER0_TAEN := false
    WTIMER0_TAV := 0
    WTIMER0_TBEN := false
    WTIMER0_TBV := 0
    WTIMER1_TAEN := false
    WTIMER1_TAV := 0
    WTIMER3_TAEN := false }

/-- One feedback block of the watchdog handler: an LED macro followed by
`beep_now(category)`. -/
def feedback (s : IsrState) (l : Led) (category : beep_t) : IsrState :=
  { s with led := l, beeps := s.beeps ++ [category] }

/-- The handler `sA_interrupt_handler`. The store is at index
`g_timer_A_accumulated`, whatever its value: the source has no bound check. -/
def sA_interrupt_handler (s : IsrState) : IsrState :=
  { s with
    g_timer_A_FIFO := Function.update s.g_timer_A_FIFO s.g_timer_A_accumulated s.WTIMER0_TAV
    g_timer_A_accumulated := addU32 s.g_timer_A_accumulated 1
    WTIMER0_TAEN := false
    WTIMER0_TAV := 0
    sA_in := true }

/-- The handler `sB_interrupt_handler`. -/
def sB_interrupt_handler (s : IsrState) : IsrState :=
  { s with
    g_timer_B_FIFO := Function.update s.g_timer_B_FIFO s.g_timer_B_accumulated s.WTIMER0_TBV
    g_timer_B_accumulated := addU32 s.g_timer_B_accumulated 1
    WTIMER0_TBEN := false
    WTIMER0_TBV := 0
    sB_in := true }

/-- The handler `sC_interrupt_handler`. -/
def sC_interrupt_handler (s : IsrState) : IsrState :=
  { s with
    g_timer_C_FIFO := Function.update s.g_timer_C_FIFO s.g_timer_C_accumulated s.WTIMER1_TAV
    g_timer_C_accumulated := addU32 s.g_timer_C_accumulated 1
    WTIMER1_TAEN := false
    WTIMER1_TAV := 0
    sC_in := true }

/-- The handler `timeout_interrupt_handler`. -/
def timeout_interrupt_handler (s : IsrState) : IsrState :=
  let s := { s with WTIMER3_TAEN := false }
  let s := { s with WTIMER0_TAEN := false, WTIMER0_TAV := 0 }
  let s := { s with WTIMER0_TBEN := false, WTIMER0_TBV := 0 }
  let s := { s with WTIMER1_TAEN := false, WTIMER1_TAV := 0 }
  let s := timer_init s
  let s := if s.ir_in && !(s.sA_in && s.sB_in && s.sC_in) then
      feedback s LED_TIMEOUT beep_t.BEEP_ERROR
    else s
  let s := if s.ir_in then
      { feedback s LED_IR_SENSOR beep_t.BEEP_IR_INT with ir_in := false }
    else s
  let s := if s.sA_in then
      { feedback s LED_SENSOR_A beep_t.BEEP_US_A_INT with sA_in := false }
    else s
  let s := if s.sB_in then
      { feedback s LED_SENSOR_B beep_t.BEEP_US_B_INT with sB_in := false }
    else s
  let s := if s.sC_in then
      { feedback s LED_SENSOR_C beep_t.BEEP_US_C_INT with sC_in := false }
    else s
  { s with WTIMER3_TAEN := false }

/-- The handler `ir_interrupt_handler`. The three `memset` calls of the reset
branch receive the value of the counter that was just cleared, not the buffer:
they name no object of this model, so the three buffers are left as they are. -/
def ir_interrupt_handler (s : IsrState) : IsrState :=
  let s := { s with led := LED_CLEAR }
  let s := timer_init s
  let s :=
    if s.g_timer_A_accumulated ≥ s.count ∨ s.g_timer_B_accumulated ≥ s.count ∨
        s.g_timer_C_accumulated ≥ s.count then
      { s with
        g_timer_A_accumulated := 0
        g_timer_B_accumulated := 0
        g_timer_C_accumulated := 0 }
    else s
  let s := { s with
    WTIMER0_TAEN := false, WTIMER0_TBEN := false, WTIMER1_TAEN := false, WTIMER3_TAEN := false }
  let s := { s with WTIMER0_TAV := 0, WTIMER0_TBV := 0, WTIMER1_TAV := 0 }
  let s := { s with
    WTIMER0_TAEN := true, WTIMER0_TBEN := true, WTIMER1_TAEN := true, WTIMER3_TAEN := true }
  { s with ir_in := true }

/-! ## The interrupt sources -/

/-- The interrupts of the acquisition pipeline. A capture interrupt carries
the number of ticks its timer has counted when the edge arrives. -/
inductive IsrEvent where
  | trigger
  | captureA (ticks : Nat)
  | captureB (ticks : Nat)
  | captureC (ticks : Nat)
  | watchdog
  deriving DecidableEq, Repr

/-- A capture interrupt is raised only by a timer whose enable bit is set;
the trigger and the watchdog are not constrained. -/
def IsrEvent.canFire (s : IsrState) : IsrEvent → Bool
  | IsrEvent.trigger => true
  | IsrEvent.captureA _ => s.WTIMER0_TAEN
  | IsrEvent.captureB _ => s.WTIMER0_TBEN
  | IsrEvent.captureC _ => s.WTIMER1_TAEN
  | IsrEvent.watchdog => true

/-- Dispatch of one interrupt: for a capture the 32-bit value register holds
the counted ticks when the handler reads it. -/
def dispatch (s : IsrState) : IsrEvent → IsrState
  | IsrEvent.trigger => ir_interrupt_handler s
  | IsrEvent.captureA ticks => sA_interrupt_handler { s with WTIMER0_TAV := ticks % 2 ^ 32 }
  | IsrEvent.captureB ticks => sB_interrupt_handler { s with WTIMER0_TBV := ticks % 2 ^ 32 }
  | IsrEvent.captureC ticks => sC_interrupt_handler { s with WTIMER1_TAV := ticks % 2 ^ 32 }
  | IsrEvent.watchdog => timeout_interrupt_handler s

/-- The globals of `main.c` after start-up with capacity `n`: zeroed statics,
timers as `timer_init` leaves them. -/
def isrInit (n : Nat) : IsrState :=
  { g_timer_A_accumulated := 0
    g_timer_B_accumulated := 0
    g_timer_C_accumulated := 0
    count := n
    g_timer_A_FIFO := fun _ => 0
    g_timer_B_FIFO := fun _ => 0
    g_timer_C_FIFO := fun _ => 0
    ir_in := false
    sA_in := false
    sB_in := false
    sC_in := false
    WTIMER0_TAEN := false
    WTIMER0_TBEN := false
    WTIMER1_TAEN := false
    WTIMER3_TAEN := false
    WTIMER0_TAV := 0
    WTIMER0_TBV := 0
    WTIMER1_TAV := 0
    led := LED_CLEAR
    beeps := [] }

/-- States reachable from start-up with capacity `n` by interrupts that can
fire. -/
inductive Reachable (n : Nat) : IsrState → Prop where
  | start : Reachable n (isrInit n)
  | step (s : IsrState) (ev : IsrEvent) :
      Reachable n s → ev.canFire s = true → Reachable n (dispatch s ev)

/-- One full acquisition cycle: the trigger, the three captures with the
given tick counts, then the watchdog expiry that closes the cycle. -/
def cycle (s : IsrState) (ticks : Nat × Nat × Nat) : IsrState :=
  let s := dispatch s IsrEvent.trigger
  let s := dispatch s (IsrEvent.captureA ticks.1)
  let s := dispatch s (IsrEvent.captureB ticks.2.1)
  let s := dispatch s (IsrEvent.captureC ticks.2.2)
  dispatch s IsrEvent.watchdog

/-- A run of consecutive acquisition cycles. -/
def cycles (s : IsrState) (samples : List (Nat × Nat × Nat)) : IsrState :=
  samples.foldl cycle s

/-- The categories handed to `beep_now` between two states of one run. -/
def emitted (before after : IsrState) : List beep_t :=
  after.beeps.drop before.beeps.length

/-! ## Specification-side definitions and concrete inputs -/

/-- The estimator run of the specification (`estimate()`): `calculate_distance`
followed by `calculate_variance` on the same buffers. -/
def estimate (s : CmdState) (fifoA fifoB fifoC : Fifo) : VarianceResult :=
  calculate_variance (calculate_distance s fifoA fifoB fifoC) fifoA fifoB fifoC

/-- The closed-form equation of the specification for one axis,
`(D² + d_B² − d_X²) / (2·D) − fix`, over the rationals. -/
def specAxis (D distB distX fix : ℚ) : ℚ :=
  (D ^ 2 + distB ^ 2 - distX ^ 2) / (2 * D) - fix

/-- A calibration store holding the given words at `CRD_AY`, `CRD_BY`,
`CRD_BX`, `CRD_CX` and `TC_AVG`, and zero everywhere else. -/
def storeOf (ay by_ bx cx avg : Nat) : Eeprom := fun k =>
  if k = CRD_AY then ay else if k = CRD_BY then by_ else if k = CRD_BX then bx
  else if k = CRD_CX then cx else if k = TC_AVG then avg else 0

/-- Accepted estimates with the given cached distances over a store. -/
def acceptedState (e : Eeprom) (distA distB distC : Nat) : CmdState :=
  { powerOn e with
    g_distance_A := distA
    g_distance_B := distB
    g_distance_C := distC
    g_values_acceptable := true }

/-- The scenario of the specification: geometry `D1 = 200`, `D2 = 300`,
accepted distances `d_A = 150`, `d_B = 100`, `d_C = 120`, zero fix. -/
def scenarioState : CmdState := acceptedState (storeOf 0 200 0 300 0) 150 100 120

/-- The geometry of the scenario with accepted distances `d_A = 300`,
`d_B = 100`, `d_C = 120`: here `D1² + d_B² − d_A²` is negative. -/
def negativeNumeratorState : CmdState := acceptedState (storeOf 0 200 0 300 0) 300 100 120

/-- Geometry `D1 = 100`, `D2 = 120` and the distances of the point
`(0, -50)`: `d_A = 150`, `d_B = 50`, `d_C = 130`. -/
def belowAxisState : CmdState := acceptedState (storeOf 0 100 0 120 0) 150 50 130

/-- A buffer whose entries all hold `t`. -/
def constFifo (t : Nat) : Fifo := fun _ => t

/-- A buffer holding `0` at index 0 and `2000000` elsewhere. -/
def noisyFifo : Fifo := fun i => if i = 0 then 0 else 2000000

/-- The state left by an accepted run with depth 2 over the buffers
`constFifo 40000`: cached distances 343, acceptability flag set. -/
def acceptedRunState : CmdState :=
  { eeprom := storeOf 0 0 0 0 2
    g_average_A := 40000
    g_average_B := 40000
    g_average_C := 40000
    g_distance_A := 343
    g_distance_B := 343
    g_distance_C := 343
    g_values_acceptable := true }

/-- Three cycles with capacity 2: ticks `(11, 12, 13)`, `(21, 22, 23)` and
`(31, 32, 33)`. -/
def rolloverRun : IsrState := cycles (isrInit 2) [(11, 12, 13), (21, 22, 23), (31, 32, 33)]

/-- The state of `rolloverRun` just before its third trigger. -/
def rolloverFull : IsrState := cycles (isrInit 2) [(11, 12, 13), (21, 22, 23)]

/-- The trigger's reset test: some sample count has reached `count`. -/
def atCapacity (s : IsrState) : Bool :=
  decide (s.g_timer_A_accumulated ≥ s.count ∨ s.g_timer_B_accumulated ≥ s.count ∨
    s.g_timer_C_accumulated ≥ s.count)

/-- The invariant behind the length bound: the capacity is fixed, no count
exceeds it, and a channel whose timer is enabled has room for one sample. -/
def LengthInv (n : Nat) (s : IsrState) : Prop :=
  s.count = n ∧
  s.g_timer_A_accumulated ≤ n ∧ s.g_timer_B_accumulated ≤ n ∧ s.g_timer_C_accumulated ≤ n ∧
  (s.WTIMER0_TAEN = true → s.g_timer_A_accumulated < n) ∧
  (s.WTIMER0_TBEN = true → s.g_timer_B_accumulated < n) ∧
  (s.WTIMER1_TAEN = true → s.g_timer_C_accumulated < n)

/-- The state in the middle of a cycle with capacity 2: the trigger has fired
and channel A has captured 7 ticks; B and C have not completed. -/
def midCycleState : IsrState :=
  dispatch (dispatch (isrInit 2) IsrEvent.trigger) (IsrEvent.captureA 7)

/-- Channel identity: one of the three sensor timing paths. -/
inductive Channel where
  | A
  | B
  | C
  deriving DecidableEq, Repr

/-- The capture handler of a channel. -/
def Channel.handler : Channel → IsrState → IsrState
  | Channel.A => sA_interrupt_handler
  | Channel.B => sB_interrupt_handler
  | Channel.C => sC_interrupt_handler

/-- The sample buffer of a channel. -/
def Channel.fifo : Channel → IsrState → Fifo
  | Channel.A => fun s => s.g_timer_A_FIFO
  | Channel.B => fun s => s.g_timer_B_FIFO
  | Channel.C => fun s => s.g_timer_C_FIFO

/-- The sample count of a channel. -/
def Channel.accumulated : Channel → IsrState → Nat
  | Channel.A => fun s => s.g_timer_A_accumulated
  | Channel.B => fun s => s.g_timer_B_accumulated
  | Channel.C => fun s => s.g_timer_C_accumulated

/-- The enable bit of the capture timer of a channel. -/
def Channel.timerEnabled : Channel → IsrState → Bool
  | Channel.A => fun s => s.WTIMER0_TAEN
  | Channel.B => fun s => s.WTIMER0_TBEN
  | Channel.C => fun s => s.WTIMER1_TAEN

/-- The capture interrupt of a channel. -/
def Channel.capture : Channel → Nat → IsrEvent
  | Channel.A => IsrEvent.captureA
  | Channel.B => IsrEvent.captureB
  | Channel.C => IsrEvent.captureC

/-- Dispatch of a sequence of interrupts; `none` when one of them cannot
fire in the state it meets. -/
def dispatchAll : IsrState → List IsrEvent → Option IsrState
  | s, [] => some s
  | s, ev :: evs => if ev.canFire s then dispatchAll (dispatch s ev) evs else none

/-- A cycle in which only some channels complete: the trigger, a capture for
each channel that has ticks, then the watchdog expiry. -/
def partialCycle (s : IsrState) (a b c : Option Nat) : IsrState :=
  let s := dispatch s IsrEvent.trigger
  let s := match a with
    | some ticks => dispatch s (IsrEvent.captureA ticks)
    | none => s
  let s := match b with
    | some ticks => dispatch s (IsrEvent.captureB ticks)
    | none => s
  let s := match c with
    | some ticks => dispatch s (IsrEvent.captureC ticks)
    | none => s
  dispatch s IsrEvent.watchdog

/-- The rows `calculate_coordinates` hands to `putsLcd`: in the accepted
branch row 0 shows `x` and row 1 shows `y`, in the other branch the display
is not written. -/
def lcdRows : CoordReport → List (Nat × Int)
  | CoordReport.position x y => [(0, x), (1, y)]
  | CoordReport.varianceOutOfBounds => []

/-- Start-up of `main`: `count = readEeprom(TC_AVG); if (count <= 0) count = 1;`
on the `uint32_t` global `count`. -/
def main_load_count (e : Eeprom) : Nat :=
  let count := readEeprom e TC_AVG
  if count ≤ 0 then 1 else count

/-- What the "average" command of `main` works on: the calibration store and
the global `count`. -/
structure AverageState where
  eeprom : Eeprom
  count : Nat

/-- The "average" command of `main`: the argument is the `int32_t` returned by
`getFieldInteger`, converted to `uint32_t`; above `MAX_AVERAGES` only an error
is printed, otherwise the word is stored and becomes `count`. -/
def average_command (s : AverageState) (arg : Int) : AverageState :=
  let average := toU32 arg
  if average > MAX_AVERAGES then s
  else { eeprom := writeEeprom s.eeprom TC_AVG average, count := average }

/-- Header constant `MAX_STRING_LENGTH` of `strings.h`. -/
def MAX_STRING_LENGTH : Nat := 80

/-- Header constant `MAX_FIELDS` of `strings.h`. -/
def MAX_FIELDS : Nat := 10

/-- The structure `string_data_t`. The three arrays are maps from index to
value (characters are their codes); an index beyond the declared length is
kept apart instead of aliasing the neighbouring member. -/
structure string_data_t where
  input_string : Nat → Nat
  type : Nat → Nat
  position : Nat → Nat
  count : Nat

/-- The macro `ASSERT_ALPHABET(c)`. -/
def ASSERT_ALPHABET (c : Nat) : Bool :=
  (decide (c ≥ 65) && decide (c ≤ 90)) || (decide (c ≥ 97) && decide (c ≤ 122))

/-- The macro `ASSERT_NUMBER(c)`. -/
def ASSERT_NUMBER (c : Nat) : Bool :=
  decide (c ≥ 48) && decide (c ≤ 57)

/-- The loop state of `string_parse`: the structure and `delimiter_flag`. -/
structure ParseState where
  data : string_data_t
  delimiter_flag : Bool

/-- One iteration of the loop of `string_parse` at index `character_count`.
The code `97` is the character `a`, `110` is `n`; `count` is a `uint8_t`. -/
def parse_step (st : ParseState) (character_count : Nat) : ParseState :=
  if ASSERT_ALPHABET (st.data.input_string character_count) then
    if st.delimiter_flag && decide (st.data.count < 10) then
      { data :=
          { st.data with
            position := Function.update st.data.position st.data.count character_count
            type := Function.update st.data.type st.data.count 97
            count := (st.data.count + 1) % 256 }
        delimiter_flag := false }
    else st
  else if ASSERT_NUMBER (st.data.input_string character_count) then
    { data :=
        { st.data with
          position := Function.update st.data.position st.data.count character_count
          type := Function.update st.data.type st.data.count 110
          count := (st.data.count + 1) % 256 }
      delimiter_flag := false }
  else
    { data :=
        { st.data with
          input_string := Function.update st.data.input_string character_count 0 }
      delimiter_flag := true }

/-- The function `string_parse`: `count` is reset, then the loop runs over the
`MAX_STRING_LENGTH` characters of the buffer. -/
def string_parse (user_data : string_data_t) : string_data_t :=
  ((List.range MAX_STRING_LENGTH).foldl parse_step
    { data := { user_data with count := 0 }, delimiter_flag := true }).data

/-- The digits loop of the C library function `atoi`: decimal digits are
accumulated from index `i` until a character that is not a digit. -/
def atoi_digits (str : Nat → Nat) : Nat → Nat → Nat → Nat
  | 0, _, acc => acc
  | fuel + 1, i, acc =>
    if ASSERT_NUMBER (str i) then atoi_digits str fuel (i + 1) (acc * 10 + (str i - 48))
    else acc

/-- The C library function `atoi` on the characters of `str` from `start`:
an optional sign (`45` is `-`, `43` is `+`) followed by decimal digits. At a
position recorded by `string_parse` the first character is a letter or a
digit, so the white-space prefix of `atoi` is empty. -/
def atoi (str : Nat → Nat) (start : Nat) : Int :=
  if str start = 45 then -((atoi_digits str MAX_STRING_LENGTH (start + 1) 0 : Nat) : Int)
  else if str start = 43 then ((atoi_digits str MAX_STRING_LENGTH (start + 1) 0 : Nat) : Int)
  else ((atoi_digits str MAX_STRING_LENGTH start 0 : Nat) : Int)

/-- The function `getFieldInteger`. -/
def getFieldInteger (user_data : string_data_t) (fieldNumber : Nat) : Int :=
  atoi user_data.input_string (user_data.position fieldNumber)

/-- An input buffer holding the given character codes followed by NUL
characters, with the other members zeroed. -/
def inputOf (chars : List Nat) : string_data_t :=
  { input_string := fun i => chars.getD i 0
    type := fun _ => 0
    position := fun _ => 0
    count := 0 }

/-- The line `sensor A 10 20`. -/
def sensorLine : List Nat := [115, 101, 110, 115, 111, 114, 32, 65, 32, 49, 48, 32, 50, 48]

/-- The line `12345678901`: eleven digits. -/
def elevenDigits : List Nat := [49, 50, 51, 52, 53, 54, 55, 56, 57, 48, 49]

/-- The loop of `reverse`: `while (i < j)` swap `str[i]` and `str[j]`, then
`i++`, `j--`. The fuel bounds the number of iterations. -/
def reverse_loop : Nat → (Nat → Nat) → Int → Int → (Nat → Nat)
  | 0, str, _, _ => str
  | fuel + 1, str, i, j =>
    if i < j then
      reverse_loop fuel
        (Function.update (Function.update str i.toNat (str j.toNat)) j.toNat (str i.toNat))
        (i + 1) (j - 1)
    else str

/-- The function `reverse(str, len)`: `i = 0`, `j = len - 1`; at most `len`
iterations are needed. -/
def reverse (str : Nat → Nat) (len : Nat) : Nat → Nat :=
  reverse_loop len str 0 ((len : Int) - 1)

/-- The first loop of `intToStr`: `while (number)` store `number % 10 + 48`
at `str[i++]` and divide `number` by 10, with the truncating division and
remainder of C. The fuel bounds the number of iterations. -/
def intToStr_digits : Nat → Int → (Nat → Nat) → Nat → (Nat → Nat) × Nat
  | 0, _, str, i => (str, i)
  | fuel + 1, number, str, i =>
    if number = 0 then (str, i)
    else
      intToStr_digits fuel (Int.tdiv number 10)
        (Function.update str i (Int.tmod number 10 + 48).toNat) (i + 1)

/-- The second loop of `intToStr`: `while (i < digits) str[i++] = 48`, given
the number of iterations that remain. -/
def intToStr_pad : Nat → (Nat → Nat) → Nat → (Nat → Nat) × Nat
  | 0, str, i => (str, i)
  | k + 1, str, i => intToStr_pad k (Function.update str i 48) (i + 1)

/-- The function `intToStr(number, str, digits)`: the characters written and
the returned length. The first loop gets `|number|` as fuel, more than the
number of decimal digits. -/
def intToStr (number : Int) (str : Nat → Nat) (digits : Int) : (Nat → Nat) × Nat :=
  let r1 := intToStr_digits number.natAbs number str 0
  let r2 := intToStr_pad (digits - (r1.2 : Int)).toNat r1.1 r1.2
  (Function.update (reverse r2.1 r2.2) r2.2 0, r2.2)

/-- The conversion of a `float` to `int`: truncation towards zero. -/
def truncInt (q : ℚ) : Int := if 0 ≤ q then Int.floor q else Int.ceil q

/-- The function `ftoa(number, destination, float_length)`, with the `float`
taken as an exact rational. The second `intToStr` writes from
`destination + i + 1`. -/
def ftoa (number : ℚ) (destination : Nat → Nat) (float_length : Nat) : Nat → Nat :=
  let whole_number := truncInt number
  let fractional_number := number - (whole_number : ℚ)
  let r := intToStr whole_number destination 0
  if float_length ≠ 0 then
    let dest := Function.update r.1 r.2 46
    let fractional_number := fractional_number * (10 : ℚ) ^ float_length
    let r2 := intToStr (truncInt fractional_number) (fun k => dest (k + (r.2 + 1))) float_length
    fun k => if k < r.2 + 1 then dest k else r2.1 (k - (r.2 + 1))
  else r.1

/-- The characters of the C string that starts at index 0 of `str`, read up
to the first NUL within `fuel` characters. -/
def cString (str : Nat → Nat) : Nat → Nat → List Nat
  | 0, _ => []
  | fuel + 1, i => if str i = 0 then [] else str i :: cString str fuel (i + 1)

/-- A character array filled with the code `63` (a question mark). -/
def blankText : Nat → Nat := fun _ => 63

/-! ## Theorems -/

/-- The clamped separation `D1` lies in `1..200`. -/
theorem geometryD1_range (e : Eeprom) : 1 ≤ geometryD1 e ∧ geometryD1 e ≤ 200 := by
  unfold geometryD1
  simp only []
  split_ifs with h <;> omega

/-- The clamped separation `D2` lies in `1..300`. -/
theorem geometryD2_range (e : Eeprom) : 1 ≤ geometryD2 e ∧ geometryD2 e ≤ 300 := by
  unfold geometryD2
  simp only []
  split_ifs with h <;> omega

/-- The unsigned expression of one axis is the integer numerator reduced modulo
`2³²`, divided by `2·D`. -/
theorem solveAxis_eq (D : Int) (hD : 1 ≤ D ∧ D ≤ 300) (b x : Nat) :
    (solveAxis D b x : Int) = ((D * D + (b : Int) * b - (x : Int) * x) % 2 ^ 32) / (2 * D) := by
  unfold solveAxis subU32 addU32 mulU32 toU32
  have hDD : 0 ≤ D * D ∧ D * D ≤ 90000 := by constructor <;> nlinarith
  generalize hq : D * D = q at *
  generalize hb : b * b = bb
  generalize hx : x * x = xx
  have hb2 : (b : Int) * b = (bb : Int) := by exact_mod_cast hb
  have hx2 : (x : Int) * x = (xx : Int) := by exact_mod_cast hx
  rw [hb2, hx2]
  push_cast
  have h2 : (((2 * D % 4294967296).toNat : Nat) : Int) = 2 * D := by omega
  rw [h2]
  congr 1
  omega

/-- When the integer numerator lies in `[0, 2³²)` nothing wraps. -/
theorem solveAxis_exact (D : Int) (hD : 1 ≤ D ∧ D ≤ 300) (b x : Nat)
    (h0 : 0 ≤ D * D + (b : Int) * b - (x : Int) * x)
    (h1 : D * D + (b : Int) * b - (x : Int) * x < 2 ^ 32) :
    (solveAxis D b x : Int) = (D * D + (b : Int) * b - (x : Int) * x) / (2 * D) := by
  rw [solveAxis_eq D hD, Int.emod_eq_of_lt h0 h1]

/-- The report of `calculate_coordinates` on accepted estimates. -/
theorem calculate_coordinates_of_acceptable (s : CmdState) (hacc : s.g_values_acceptable = true) :
    calculate_coordinates s = CoordReport.position
      ((solveAxis (geometryD2 s.eeprom) s.g_distance_B s.g_distance_C : Int)
        - (readEeprom s.eeprom FIX_X : Int))
      ((solveAxis (geometryD1 s.eeprom) s.g_distance_B s.g_distance_A : Int)
        - (readEeprom s.eeprom FIX_Y : Int)) := by
  simp [calculate_coordinates, hacc]

/-- The floor of the closed-form value is the integer quotient. -/
theorem floor_specAxis (D : Int) (hD : 1 ≤ D) (b x : Nat) :
    ⌊specAxis (D : ℚ) (b : ℚ) (x : ℚ) 0⌋ = (D * D + (b : Int) * b - (x : Int) * x) / (2 * D) := by
  have h := Rat.floor_intCast_div_natCast (D * D + (b : Int) * b - (x : Int) * x) (2 * D).toNat
  have h2 : (((2 * D).toNat : Nat) : Int) = 2 * D := by omega
  rw [h2] at h
  rw [← h]
  congr 1
  unfold specAxis
  have h3 : (((2 * D).toNat : Nat) : ℚ) = 2 * (D : ℚ) := by
    have : ((((2 * D).toNat : Nat) : Int) : ℚ) = ((2 * D : Int) : ℚ) := by rw [h2]
    push_cast at this
    exact_mod_cast this
  rw [h3]
  push_cast
  ring

/-- C1 (amended): when the estimates are acceptable and both numerators
`D² + d_B² − d_X²` lie in `[0, 2³²)`, `calculate_coordinates` reports the
closed-form values truncated to whole millimetres, minus the stored fix words:
`x = ⌊(D2² + d_B² − d_C²)/(2·D2)⌋ − fix_x`, `y = ⌊(D1² + d_B² − d_A²)/(2·D1)⌋ − fix_y`. -/
theorem c1_coordinates_are_truncated_closed_form (s : CmdState)
    (hacc : s.g_values_acceptable = true)
    (hy0 : 0 ≤ geometryD1 s.eeprom * geometryD1 s.eeprom
      + (s.g_distance_B : Int) * s.g_distance_B - (s.g_distance_A : Int) * s.g_distance_A)
    (hy1 : geometryD1 s.eeprom * geometryD1 s.eeprom
      + (s.g_distance_B : Int) * s.g_distance_B - (s.g_distance_A : Int) * s.g_distance_A < 2 ^ 32)
    (hx0 : 0 ≤ geometryD2 s.eeprom * geometryD2 s.eeprom
      + (s.g_distance_B : Int) * s.g_distance_B - (s.g_distance_C : Int) * s.g_distance_C)
    (hx1 : geometryD2 s.eeprom * geometryD2 s.eeprom
      + (s.g_distance_B : Int) * s.g_distance_B - (s.g_distance_C : Int) * s.g_distance_C < 2 ^ 32) :
    calculate_coordinates s = CoordReport.position
      (⌊specAxis (geometryD2 s.eeprom) s.g_distance_B s.g_distance_C 0⌋
        - (readEeprom s.eeprom FIX_X : Int))
      (⌊specAxis (geometryD1 s.eeprom) s.g_distance_B s.g_distance_A 0⌋
        - (readEeprom s.eeprom FIX_Y : Int)) := by
  have h1 := geometryD1_range s.eeprom
  have h2 := geometryD2_range s.eeprom
  rw [calculate_coordinates_of_acceptable s hacc,
    solveAxis_exact _ ⟨h1.1, by omega⟩ _ _ hy0 hy1,
    solveAxis_exact _ h2 _ _ hx0 hx1,
    floor_specAxis _ h1.1, floor_specAxis _ h2.1]

/-- C1 (counterexample): in the scenario of the specification the code
reports `(142, 68)`, while the closed-form equations give `(428/3, 68.75)`;
and for `d_A = 300` in the same geometry it reports `y = 10737318`, while the
closed-form equation gives `y = -100`. -/
theorem c1_scenario_is_truncated :
    geometryD1 scenarioState.eeprom = 200 ∧ geometryD2 scenarioState.eeprom = 300 ∧
    readEeprom scenarioState.eeprom FIX_X = 0 ∧ readEeprom scenarioState.eeprom FIX_Y = 0 ∧
    calculate_coordinates scenarioState = CoordReport.position 142 68 ∧
    specAxis 300 100 120 0 = 428 / 3 ∧ specAxis 200 100 150 0 = 27500 / 400 ∧
    ((142 : Int) : ℚ) ≠ specAxis 300 100 120 0 ∧ ((68 : Int) : ℚ) ≠ specAxis 200 100 150 0 ∧
    calculate_coordinates negativeNumeratorState = CoordReport.position 142 10737318 ∧
    specAxis 200 100 300 0 = -100 := by
  refine ⟨by decide, by decide, by decide, by decide, by decide, ?_, ?_, ?_, ?_,
    by decide, ?_⟩ <;> norm_num [specAxis]

/-- Witness for C1 (amended): the scenario of the specification. -/
theorem c1_coordinates_are_truncated_closed_form_witness :
    scenarioState.g_values_acceptable = true ∧
    (0 ≤ geometryD1 scenarioState.eeprom * geometryD1 scenarioState.eeprom
      + (scenarioState.g_distance_B : Int) * scenarioState.g_distance_B
      - (scenarioState.g_distance_A : Int) * scenarioState.g_distance_A) ∧
    (geometryD1 scenarioState.eeprom * geometryD1 scenarioState.eeprom
      + (scenarioState.g_distance_B : Int) * scenarioState.g_distance_B
      - (scenarioState.g_distance_A : Int) * scenarioState.g_distance_A < 2 ^ 32) ∧
    (0 ≤ geometryD2 scenarioState.eeprom * geometryD2 scenarioState.eeprom
      + (scenarioState.g_distance_B : Int) * scenarioState.g_distance_B
      - (scenarioState.g_distance_C : Int) * scenarioState.g_distance_C) ∧
    (geometryD2 scenarioState.eeprom * geometryD2 scenarioState.eeprom
      + (scenarioState.g_distance_B : Int) * scenarioState.g_distance_B
      - (scenarioState.g_distance_C : Int) * scenarioState.g_distance_C < 2 ^ 32) ∧
    calculate_coordinates scenarioState = CoordReport.position
      (⌊specAxis (geometryD2 scenarioState.eeprom) scenarioState.g_distance_B
          scenarioState.g_distance_C 0⌋ - (readEeprom scenarioState.eeprom FIX_X : Int))
      (⌊specAxis (geometryD1 scenarioState.eeprom) scenarioState.g_distance_B
          scenarioState.g_distance_A 0⌋ - (readEeprom scenarioState.eeprom FIX_Y : Int)) :=
  ⟨rfl, by decide, by decide, by decide, by decide,
    c1_coordinates_are_truncated_closed_form scenarioState rfl
      (by decide) (by decide) (by decide) (by decide)⟩

/-- C2 (failing input): for geometry `D1 = 100`, `D2 = 120` the point
`(x0, y0) = (0, -50)` has the integer distances `d_A = 150`, `d_B = 50`,
`d_C = 130`; on them the code reports `y = 21474786`, the wrapped unsigned
numerator divided by `2·D1`, which is not within 1 of `y0 = -50`. -/
theorem c2_point_below_axis_not_recovered :
    geometryD1 belowAxisState.eeprom = 100 ∧ geometryD2 belowAxisState.eeprom = 120 ∧
    ((50 : Int) ^ 2 = 0 ^ 2 + (-50) ^ 2) ∧
    ((150 : Int) ^ 2 = 0 ^ 2 + (-50 - 100) ^ 2) ∧
    ((130 : Int) ^ 2 = (0 - 120) ^ 2 + (-50) ^ 2) ∧
    readEeprom belowAxisState.eeprom FIX_X = 0 ∧ readEeprom belowAxisState.eeprom FIX_Y = 0 ∧
    calculate_coordinates belowAxisState = CoordReport.position 0 21474786 ∧
    ¬ (|(21474786 : Int) - (-50)| < 1) := by
  decide

/-- Round trip on the first quadrant: for a point `(x0, y0)` with `0 ≤ x0`,
`0 ≤ y0`, `2·D2·x0 < 2³²` and `2·D1·y0 < 2³²` whose distances follow the forward
model, the code reports exactly `(x0 − fix_x, y0 − fix_y)`. -/
theorem roundtrip_first_quadrant (s : CmdState) (x0 y0 : Int)
    (hacc : s.g_values_acceptable = true)
    (hx : 0 ≤ x0) (hy : 0 ≤ y0)
    (hxb : 2 * geometryD2 s.eeprom * x0 < 2 ^ 32)
    (hyb : 2 * geometryD1 s.eeprom * y0 < 2 ^ 32)
    (hB : (s.g_distance_B : Int) ^ 2 = x0 ^ 2 + y0 ^ 2)
    (hA : (s.g_distance_A : Int) ^ 2 = x0 ^ 2 + (y0 - geometryD1 s.eeprom) ^ 2)
    (hC : (s.g_distance_C : Int) ^ 2 = (x0 - geometryD2 s.eeprom) ^ 2 + y0 ^ 2) :
    calculate_coordinates s = CoordReport.position
      (x0 - (readEeprom s.eeprom FIX_X : Int)) (y0 - (readEeprom s.eeprom FIX_Y : Int)) := by
  have h1 := geometryD1_range s.eeprom
  have h2 := geometryD2_range s.eeprom
  have ey : geometryD1 s.eeprom * geometryD1 s.eeprom
      + (s.g_distance_B : Int) * s.g_distance_B - (s.g_distance_A : Int) * s.g_distance_A
      = 2 * geometryD1 s.eeprom * y0 := by nlinarith
  have ex : geometryD2 s.eeprom * geometryD2 s.eeprom
      + (s.g_distance_B : Int) * s.g_distance_B - (s.g_distance_C : Int) * s.g_distance_C
      = 2 * geometryD2 s.eeprom * x0 := by nlinarith
  have py : 0 ≤ 2 * geometryD1 s.eeprom * y0 :=
    Int.mul_nonneg (by omega) hy
  have px : 0 ≤ 2 * geometryD2 s.eeprom * x0 :=
    Int.mul_nonneg (by omega) hx
  rw [calculate_coordinates_of_acceptable s hacc,
    solveAxis_exact _ ⟨h1.1, by omega⟩ _ _ (by rw [ey]; exact py) (by rw [ey]; exact hyb),
    solveAxis_exact _ h2 _ _ (by rw [ex]; exact px) (by rw [ex]; exact hxb), ex, ey,
    Int.mul_ediv_cancel_left _ (by omega), Int.mul_ediv_cancel_left _ (by omega)]

/-- Fix subtraction for stored fixes that are not negative: for
`0 ≤ bx, by < 2³²` the report after `update_fix(bx, by)` is the zero-fix
report minus `(bx, by)`. -/
theorem fix_additive_of_nonneg (s : CmdState) (bx by_ : Int)
    (hacc : s.g_values_acceptable = true)
    (hbx : 0 ≤ bx ∧ bx < 2 ^ 32) (hby : 0 ≤ by_ ∧ by_ < 2 ^ 32) :
    ∃ x y : Int, calculate_coordinates (update_fix s 0 0) = CoordReport.position x y ∧
      calculate_coordinates (update_fix s bx by_) = CoordReport.position (x - bx) (y - by_) := by
  have e0 : ∀ a b : Int, geometryD1 (update_fix s a b).eeprom = geometryD1 s.eeprom := by
    intro a b; rfl
  have e1 : ∀ a b : Int, geometryD2 (update_fix s a b).eeprom = geometryD2 s.eeprom := by
    intro a b; rfl
  have fx : ∀ a b : Int, 0 ≤ a ∧ a < 2 ^ 32 →
      (readEeprom (update_fix s a b).eeprom FIX_X : Int) = a := by
    intro a b h
    simp [readEeprom, update_fix, writeEeprom, toU32, FIX_X, FIX_Y]
    omega
  have fy : ∀ a b : Int, 0 ≤ b ∧ b < 2 ^ 32 →
      (readEeprom (update_fix s a b).eeprom FIX_Y : Int) = b := by
    intro a b h
    simp [readEeprom, update_fix, writeEeprom, toU32, FIX_X, FIX_Y]
    omega
  refine ⟨_, _, calculate_coordinates_of_acceptable _ hacc, ?_⟩
  rw [calculate_coordinates_of_acceptable _ (show (update_fix s bx by_).g_values_acceptable = true from hacc)]
  rw [e0, e1, e0, e1, fx bx by_ hbx, fy bx by_ hby, fx 0 0 (by norm_num), fy 0 0 (by norm_num)]
  simp [update_fix]

/-- The guard `ASSERT` keeps a depth in `1..MAX_AVERAGES`. -/
theorem ASSERT_of_valid (N : Nat) (hN : 1 ≤ N ∧ N ≤ MAX_AVERAGES) : ASSERT N = N := by
  unfold ASSERT MAX_AVERAGES at *
  split_ifs with h <;> omega

/-- Truncation of a rational is its natural floor. -/
theorem truncU32_eq_floor (q : ℚ) : truncU32 q = ⌊q⌋₊ := by
  unfold truncU32
  exact Int.floor_toNat q

/-- The summing loop over `n` entries equal to `t`. -/
theorem sumLoop_const (fifo : Fifo) (t : Nat) :
    ∀ n : Nat, (∀ i, i < n → fifo i = t) → sumLoop fifo n = (n : ℚ) * t := by
  intro n
  induction n with
  | zero => intro _; simp [sumLoop]
  | succ k ih =>
    intro h
    rw [sumLoop, ih (fun i hi => h i (Nat.lt_succ_of_lt hi)), h k (Nat.lt_succ_self k)]
    push_cast
    ring

/-- The numerator loop over `n` entries equal to `t`. -/
theorem numeratorLoop_const (fifo : Fifo) (dist t : Nat) :
    ∀ n : Nat, (∀ i, i < n → fifo i = t) →
      numeratorLoop fifo dist n
        = (n : ℚ) * (((t : ℚ) * CONVERSION_CONSTANT - (dist : ℚ)) ^ 2) := by
  intro n
  induction n with
  | zero => intro _; simp [numeratorLoop]
  | succ k ih =>
    intro h
    rw [numeratorLoop, ih (fun i hi => h i (Nat.lt_succ_of_lt hi)), h k (Nat.lt_succ_self k)]
    push_cast
    ring

/-- The cached distance of a channel after `calculate_distance`. -/
theorem calculate_distance_const (s : CmdState) (fifoA fifoB fifoC : Fifo) (N t : Nat)
    (hN : 1 ≤ N ∧ N ≤ MAX_AVERAGES) (hdepth : readEeprom s.eeprom TC_AVG = N)
    (hA : ∀ i, i < N → fifoA i = t) (hB : ∀ i, i < N → fifoB i = t)
    (hC : ∀ i, i < N → fifoC i = t) :
    calculate_distance s fifoA fifoB fifoC =
      { s with
        g_average_A := t
        g_average_B := t
        g_average_C := t
        g_distance_A := ⌊(t : ℚ) * CONVERSION_CONSTANT⌋₊
        g_distance_B := ⌊(t : ℚ) * CONVERSION_CONSTANT⌋₊
        g_distance_C := ⌊(t : ℚ) * CONVERSION_CONSTANT⌋₊ } := by
  have hNq : (N : ℚ) ≠ 0 := by
    have : 0 < N := hN.1
    exact_mod_cast this.ne'
  have hmean : ∀ f : Fifo, (∀ i, i < N → f i = t) → sumLoop f N / (N : ℚ) = t := by
    intro f hf
    rw [sumLoop_const f t N hf]
    field_simp
  unfold calculate_distance
  simp only [hdepth, ASSERT_of_valid N hN, hmean fifoA hA, hmean fifoB hB, hmean fifoC hC,
    truncU32_eq_floor]

/-- `40000` ticks are exactly 343 millimetres. -/
theorem floor_40000_ticks : ⌊((40000 : Nat) : ℚ) * CONVERSION_CONSTANT⌋₊ = 343 := by
  have h : ((40000 : Nat) : ℚ) * CONVERSION_CONSTANT = ((343 : Nat) : ℚ) := by
    norm_num [CONVERSION_CONSTANT]
  rw [h, Nat.floor_natCast]

/-- The run `estimate` in closed form: with `n` the guarded depth, every
channel's cached average is `Σ_{i<n} fifo[i] / n`, its cached distance the
truncation of the scaled average, and its printed variance the mean of the
squared differences between the scaled samples and that cached distance. -/
theorem estimate_spec (s : CmdState) (fifoA fifoB fifoC : Fifo) :
    (estimate s fifoA fifoB fifoC).state.eeprom = s.eeprom ∧
    ((estimate s fifoA fifoB fifoC).state.g_average_A
        = sumLoop fifoA (ASSERT (readEeprom s.eeprom TC_AVG))
            / ((ASSERT (readEeprom s.eeprom TC_AVG) : Nat) : ℚ) ∧
      (estimate s fifoA fifoB fifoC).state.g_average_B
        = sumLoop fifoB (ASSERT (readEeprom s.eeprom TC_AVG))
            / ((ASSERT (readEeprom s.eeprom TC_AVG) : Nat) : ℚ) ∧
      (estimate s fifoA fifoB fifoC).state.g_average_C
        = sumLoop fifoC (ASSERT (readEeprom s.eeprom TC_AVG))
            / ((ASSERT (readEeprom s.eeprom TC_AVG) : Nat) : ℚ)) ∧
    ((estimate s fifoA fifoB fifoC).state.g_distance_A
        = truncU32 (sumLoop fifoA (ASSERT (readEeprom s.eeprom TC_AVG))
            / ((ASSERT (readEeprom s.eeprom TC_AVG) : Nat) : ℚ) * CONVERSION_CONSTANT) ∧
      (estimate s fifoA fifoB fifoC).state.g_distance_B
        = truncU32 (sumLoop fifoB (ASSERT (readEeprom s.eeprom TC_AVG))
            / ((ASSERT (readEeprom s.eeprom TC_AVG) : Nat) : ℚ) * CONVERSION_CONSTANT) ∧
      (estimate s fifoA fifoB fifoC).state.g_distance_C
        = truncU32 (sumLoop fifoC (ASSERT (readEeprom s.eeprom TC_AVG))
            / ((ASSERT (readEeprom s.eeprom TC_AVG) : Nat) : ℚ) * CONVERSION_CONSTANT)) ∧
    ((estimate s fifoA fifoB fifoC).variance_A
        = numeratorLoop fifoA
            (truncU32 (sumLoop fifoA (ASSERT (readEeprom s.eeprom TC_AVG))
              / ((ASSERT (readEeprom s.eeprom TC_AVG) : Nat) : ℚ) * CONVERSION_CONSTANT))
            (ASSERT (readEeprom s.eeprom TC_AVG))
          / ((ASSERT (readEeprom s.eeprom TC_AVG) : Nat) : ℚ) ∧
      (estimate s fifoA fifoB fifoC).variance_B
        = numeratorLoop fifoB
            (truncU32 (sumLoop fifoB (ASSERT (readEeprom s.eeprom TC_AVG))
              / ((ASSERT (readEeprom s.eeprom TC_AVG) : Nat) : ℚ) * CONVERSION_CONSTANT))
            (ASSERT (readEeprom s.eeprom TC_AVG))
          / ((ASSERT (readEeprom s.eeprom TC_AVG) : Nat) : ℚ) ∧
      (estimate s fifoA fifoB fifoC).variance_C
        = numeratorLoop fifoC
            (truncU32 (sumLoop fifoC (ASSERT (readEeprom s.eeprom TC_AVG))
              / ((ASSERT (readEeprom s.eeprom TC_AVG) : Nat) : ℚ) * CONVERSION_CONSTANT))
            (ASSERT (readEeprom s.eeprom TC_AVG))
          / ((ASSERT (readEeprom s.eeprom TC_AVG) : Nat) : ℚ)) := by
  unfold estimate calculate_variance
  simp only []
  by_cases hc : (calculate_distance s fifoA fifoB fifoC).g_distance_A = 0 ∨
      (calculate_distance s fifoA fifoB fifoC).g_distance_C = 0 ∨
      (calculate_distance s fifoA fifoB fifoC).g_distance_C = 0
  · rw [if_pos hc]
    refine ⟨?_, ⟨?_, ?_, ?_⟩, ⟨?_, ?_, ?_⟩, ⟨rfl, rfl, rfl⟩⟩ <;> split_ifs <;> rfl
  · rw [if_neg hc]
    refine ⟨?_, ⟨?_, ?_, ?_⟩, ⟨?_, ?_, ?_⟩, ⟨rfl, rfl, rfl⟩⟩ <;> split_ifs <;> rfl

/-- The function `calculate_distance` does not touch the acceptability flag. -/
theorem calculate_distance_flag (s : CmdState) (fifoA fifoB fifoC : Fifo) :
    (calculate_distance s fifoA fifoB fifoC).g_values_acceptable = s.g_values_acceptable := rfl

/-- The acceptability flag after `calculate_variance`: the flag before, or the
gate on the variances just computed. -/
theorem calculate_variance_flag (s : CmdState) (fifoA fifoB fifoC : Fifo) :
    (calculate_variance s fifoA fifoB fifoC).state.g_values_acceptable
      = (s.g_values_acceptable ||
          varianceGate (calculate_variance s fifoA fifoB fifoC).variance_A
            (calculate_variance s fifoA fifoB fifoC).variance_B
            (calculate_variance s fifoA fifoB fifoC).variance_C) := by
  unfold calculate_variance
  simp only []
  split_ifs with h1 h2 <;> simp_all [calculate_distance_flag]

/-- `calculate_variance` when the cached distances of A and C are not zero:
the distances are not recomputed. -/
theorem calculate_variance_cached (s : CmdState) (fifoA fifoB fifoC : Fifo)
    (hA : s.g_distance_A ≠ 0) (hC : s.g_distance_C ≠ 0) :
    (calculate_variance s fifoA fifoB fifoC).variance_A
      = numeratorLoop fifoA s.g_distance_A (ASSERT (readEeprom s.eeprom TC_AVG))
          / ((ASSERT (readEeprom s.eeprom TC_AVG) : Nat) : ℚ) ∧
    (calculate_variance s fifoA fifoB fifoC).variance_B
      = numeratorLoop fifoB s.g_distance_B (ASSERT (readEeprom s.eeprom TC_AVG))
          / ((ASSERT (readEeprom s.eeprom TC_AVG) : Nat) : ℚ) ∧
    (calculate_variance s fifoA fifoB fifoC).variance_C
      = numeratorLoop fifoC s.g_distance_C (ASSERT (readEeprom s.eeprom TC_AVG))
          / ((ASSERT (readEeprom s.eeprom TC_AVG) : Nat) : ℚ) ∧
    (calculate_variance s fifoA fifoB fifoC).state.g_distance_A = s.g_distance_A ∧
    (calculate_variance s fifoA fifoB fifoC).state.g_distance_B = s.g_distance_B ∧
    (calculate_variance s fifoA fifoB fifoC).state.g_distance_C = s.g_distance_C ∧
    (calculate_variance s fifoA fifoB fifoC).state.eeprom = s.eeprom := by
  unfold calculate_variance
  simp only []
  have hc : ¬ (s.g_distance_A = 0 ∨ s.g_distance_C = 0 ∨ s.g_distance_C = 0) := by
    rintro (h | h | h) <;> contradiction
  rw [if_neg hc]
  refine ⟨rfl, rfl, rfl, ?_, ?_, ?_, ?_⟩ <;> split_ifs <;> rfl

/-- The report only depends on the store, the cached distances and the flag. -/
theorem calculate_coordinates_eq (s t : CmdState) (he : s.eeprom = t.eeprom)
    (hA : s.g_distance_A = t.g_distance_A) (hB : s.g_distance_B = t.g_distance_B)
    (hC : s.g_distance_C = t.g_distance_C)
    (hf : s.g_values_acceptable = t.g_values_acceptable) :
    calculate_coordinates s = calculate_coordinates t := by
  unfold calculate_coordinates
  rw [he, hA, hB, hC, hf]

/-- C5 (failing input): a run with depth 2 over steady buffers is accepted
and leaves `acceptedRunState`; a second `calculate_variance` over a noisy
buffer A computes a variance of `141296449` for channel A (B and C stay at
0), yet the flag is still set and `calculate_coordinates` reports the
position `(150, 100)` instead of "Variance out of bounds". -/
theorem c5_rejection_missed_after_acceptance :
    (calculate_variance (powerOn (storeOf 0 0 0 0 2)) (constFifo 40000) (constFifo 40000)
      (constFifo 40000)).state = acceptedRunState ∧
    (calculate_variance acceptedRunState noisyFifo (constFifo 40000)
      (constFifo 40000)).variance_A = 141296449 ∧
    (10 : ℚ) < (calculate_variance acceptedRunState noisyFifo (constFifo 40000)
      (constFifo 40000)).variance_A ∧
    (calculate_variance acceptedRunState noisyFifo (constFifo 40000)
      (constFifo 40000)).variance_B ≤ 10 ∧
    (calculate_variance acceptedRunState noisyFifo (constFifo 40000)
      (constFifo 40000)).variance_C ≤ 10 ∧
    calculate_coordinates (calculate_variance acceptedRunState noisyFifo (constFifo 40000)
      (constFifo 40000)).state = CoordReport.position 150 100 ∧
    calculate_coordinates (calculate_variance acceptedRunState noisyFifo (constFifo 40000)
      (constFifo 40000)).state ≠ CoordReport.varianceOutOfBounds := by
  have hN : ASSERT (readEeprom acceptedRunState.eeprom TC_AVG) = 2 := by decide
  obtain ⟨vA, vB, vC, dA, dB, dC, he⟩ := calculate_variance_cached acceptedRunState noisyFifo
    (constFifo 40000) (constFifo 40000) (by decide) (by decide)
  have hflag := calculate_variance_flag acceptedRunState noisyFifo (constFifo 40000)
    (constFifo 40000)
  rw [hN] at vA vB vC
  have eA : (calculate_variance acceptedRunState noisyFifo (constFifo 40000)
      (constFifo 40000)).variance_A = 141296449 := by
    rw [vA]
    norm_num [numeratorLoop, noisyFifo, acceptedRunState, CONVERSION_CONSTANT]
  have eB : (calculate_variance acceptedRunState noisyFifo (constFifo 40000)
      (constFifo 40000)).variance_B = 0 := by
    rw [vB]
    norm_num [numeratorLoop, constFifo, acceptedRunState, CONVERSION_CONSTANT]
  have eC : (calculate_variance acceptedRunState noisyFifo (constFifo 40000)
      (constFifo 40000)).variance_C = 0 := by
    rw [vC]
    norm_num [numeratorLoop, constFifo, acceptedRunState, CONVERSION_CONSTANT]
  have hpos : calculate_coordinates (calculate_variance acceptedRunState noisyFifo
      (constFifo 40000) (constFifo 40000)).state = CoordReport.position 150 100 := by
    rw [calculate_coordinates_eq _ acceptedRunState he dA dB dC (by rw [hflag]; rfl)]
    decide
  refine ⟨?_, eA, ?_, ?_, ?_, hpos, ?_⟩
  · have h2 : ASSERT (readEeprom (storeOf 0 0 0 0 2) TC_AVG) = 2 := by decide
    have hc : (powerOn (storeOf 0 0 0 0 2)).g_distance_A = 0 ∨
        (powerOn (storeOf 0 0 0 0 2)).g_distance_C = 0 ∨
        (powerOn (storeOf 0 0 0 0 2)).g_distance_C = 0 := Or.inl rfl
    unfold calculate_variance
    simp only []
    rw [if_pos hc, calculate_distance_const (powerOn (storeOf 0 0 0 0 2)) (constFifo 40000)
      (constFifo 40000) (constFifo 40000) 2 40000
      (by decide) (by decide) (fun _ _ => rfl) (fun _ _ => rfl) (fun _ _ => rfl),
      floor_40000_ticks]
    simp only [powerOn, h2]
    norm_num [numeratorLoop, constFifo, CONVERSION_CONSTANT, varianceGate, acceptedRunState]
  · rw [eA]; norm_num
  · rw [eB]; norm_num
  · rw [eC]; norm_num
  · rw [hpos]; decide

/-- With a cached distance of A or C equal to 0, `calculate_variance` first
runs `calculate_distance`; as that run only depends on the store and the
buffers, the result is the one of `estimate`. -/
theorem calculate_variance_of_unset (s : CmdState) (fifoA fifoB fifoC : Fifo)
    (h : s.g_distance_A = 0 ∨ s.g_distance_C = 0 ∨ s.g_distance_C = 0) :
    calculate_variance s fifoA fifoB fifoC = estimate s fifoA fifoB fifoC := by
  unfold estimate calculate_variance
  simp only []
  rw [if_pos h]
  by_cases hc : (calculate_distance s fifoA fifoB fifoC).g_distance_A = 0 ∨
      (calculate_distance s fifoA fifoB fifoC).g_distance_C = 0 ∨
      (calculate_distance s fifoA fifoB fifoC).g_distance_C = 0
  · rw [if_pos hc]
    rfl
  · rw [if_neg hc]

/-- C6: whenever the three variances computed by `calculate_variance` are all
at most 10 the acceptability flag is set afterwards and a following
`calculate_coordinates` reports a position; the gate itself accepts the
value 10. -/
theorem c6_accepted_up_to_threshold (s : CmdState) (fifoA fifoB fifoC : Fifo)
    (hA : (calculate_variance s fifoA fifoB fifoC).variance_A ≤ 10)
    (hB : (calculate_variance s fifoA fifoB fifoC).variance_B ≤ 10)
    (hC : (calculate_variance s fifoA fifoB fifoC).variance_C ≤ 10) :
    varianceGate 10 10 10 = true ∧
    (calculate_variance s fifoA fifoB fifoC).state.g_values_acceptable = true ∧
    ∃ x y : Int, calculate_coordinates (calculate_variance s fifoA fifoB fifoC).state
      = CoordReport.position x y := by
  have hgate : varianceGate (calculate_variance s fifoA fifoB fifoC).variance_A
      (calculate_variance s fifoA fifoB fifoC).variance_B
      (calculate_variance s fifoA fifoB fifoC).variance_C = true := by
    simp [varianceGate, hA, hB, hC]
  have hflag : (calculate_variance s fifoA fifoB fifoC).state.g_values_acceptable = true := by
    rw [calculate_variance_flag, hgate, Bool.or_true]
  refine ⟨by simp [varianceGate], hflag, _, _, calculate_coordinates_of_acceptable _ hflag⟩

/-- Witness for C6: over `acceptedRunState` the steady buffers of 40000 ticks
give three variances equal to 0. -/
theorem c6_accepted_up_to_threshold_witness :
    ((calculate_variance acceptedRunState (constFifo 40000) (constFifo 40000)
        (constFifo 40000)).variance_A ≤ 10 ∧
      (calculate_variance acceptedRunState (constFifo 40000) (constFifo 40000)
        (constFifo 40000)).variance_B ≤ 10 ∧
      (calculate_variance acceptedRunState (constFifo 40000) (constFifo 40000)
        (constFifo 40000)).variance_C ≤ 10) ∧
    (varianceGate 10 10 10 = true ∧
      (calculate_variance acceptedRunState (constFifo 40000) (constFifo 40000)
        (constFifo 40000)).state.g_values_acceptable = true ∧
      ∃ x y : Int, calculate_coordinates (calculate_variance acceptedRunState
        (constFifo 40000) (constFifo 40000) (constFifo 40000)).state
        = CoordReport.position x y) := by
  obtain ⟨vA, vB, vC, _⟩ := calculate_variance_cached acceptedRunState (constFifo 40000)
    (constFifo 40000) (constFifo 40000) (by decide) (by decide)
  have hN : ASSERT (readEeprom acceptedRunState.eeprom TC_AVG) = 2 := by decide
  rw [hN] at vA vB vC
  have hA : (calculate_variance acceptedRunState (constFifo 40000) (constFifo 40000)
      (constFifo 40000)).variance_A ≤ 10 := by
    rw [vA]; norm_num [numeratorLoop, constFifo, acceptedRunState, CONVERSION_CONSTANT]
  have hB : (calculate_variance acceptedRunState (constFifo 40000) (constFifo 40000)
      (constFifo 40000)).variance_B ≤ 10 := by
    rw [vB]; norm_num [numeratorLoop, constFifo, acceptedRunState, CONVERSION_CONSTANT]
  have hC : (calculate_variance acceptedRunState (constFifo 40000) (constFifo 40000)
      (constFifo 40000)).variance_C ≤ 10 := by
    rw [vC]; norm_num [numeratorLoop, constFifo, acceptedRunState, CONVERSION_CONSTANT]
  exact ⟨⟨hA, hB, hC⟩, c6_accepted_up_to_threshold _ _ _ _ hA hB hC⟩

/-- C7 (failing input): with capacity `N = 2` the third trigger clears the
three counts together and the third cycle leaves one sample per buffer at
index 0, but index 1 of every buffer still holds the sample of the second
cycle (21, 22, 23): the buffers are not flushed. -/
theorem c7_rollover_keeps_stale_entries :
    (rolloverFull.g_timer_A_accumulated = 2 ∧ rolloverFull.g_timer_B_accumulated = 2 ∧
      rolloverFull.g_timer_C_accumulated = 2) ∧
    ((ir_interrupt_handler rolloverFull).g_timer_A_accumulated = 0 ∧
      (ir_interrupt_handler rolloverFull).g_timer_B_accumulated = 0 ∧
      (ir_interrupt_handler rolloverFull).g_timer_C_accumulated = 0) ∧
    (rolloverRun.g_timer_A_accumulated = 1 ∧ rolloverRun.g_timer_B_accumulated = 1 ∧
      rolloverRun.g_timer_C_accumulated = 1) ∧
    (rolloverRun.g_timer_A_FIFO 0 = 31 ∧ rolloverRun.g_timer_B_FIFO 0 = 32 ∧
      rolloverRun.g_timer_C_FIFO 0 = 33) ∧
    (rolloverRun.g_timer_A_FIFO 1 = 21 ∧ rolloverRun.g_timer_B_FIFO 1 = 22 ∧
      rolloverRun.g_timer_C_FIFO 1 = 23) ∧
    (rolloverFull.g_timer_A_FIFO 1 = 21 ∧ rolloverFull.g_timer_B_FIFO 1 = 22 ∧
      rolloverFull.g_timer_C_FIFO 1 = 23) := by
  decide

/-- Effect of one acquisition cycle on the capacity, the counts and the
buffers. -/
theorem cycle_effect (s : IsrState) (t : Nat × Nat × Nat) :
    (cycle s t).count = s.count ∧
    (cycle s t).g_timer_A_accumulated
      = addU32 (if atCapacity s then 0 else s.g_timer_A_accumulated) 1 ∧
    (cycle s t).g_timer_B_accumulated
      = addU32 (if atCapacity s then 0 else s.g_timer_B_accumulated) 1 ∧
    (cycle s t).g_timer_C_accumulated
      = addU32 (if atCapacity s then 0 else s.g_timer_C_accumulated) 1 ∧
    (cycle s t).g_timer_A_FIFO = Function.update s.g_timer_A_FIFO
      (if atCapacity s then 0 else s.g_timer_A_accumulated) (t.1 % 2 ^ 32) ∧
    (cycle s t).g_timer_B_FIFO = Function.update s.g_timer_B_FIFO
      (if atCapacity s then 0 else s.g_timer_B_accumulated) (t.2.1 % 2 ^ 32) ∧
    (cycle s t).g_timer_C_FIFO = Function.update s.g_timer_C_FIFO
      (if atCapacity s then 0 else s.g_timer_C_accumulated) (t.2.2 % 2 ^ 32) := by
  obtain ⟨a, b, c, n, fA, fB, fC, ir, sa, sb, sc, e0, e1, e2, e3, v0, v1, v2, l, bs⟩ := s
  by_cases h : atCapacity ⟨a, b, c, n, fA, fB, fC, ir, sa, sb, sc, e0, e1, e2, e3, v0, v1, v2, l, bs⟩
      = true
  · have h' := h
    unfold atCapacity at h'
    simp only [decide_eq_true_eq] at h'
    simp only [cycle, dispatch, ir_interrupt_handler, timer_init, sA_interrupt_handler,
      sB_interrupt_handler, sC_interrupt_handler, timeout_interrupt_handler, feedback,
      if_pos h, if_pos h']
    simp
  · have h' := h
    unfold atCapacity at h'
    simp only [decide_eq_true_eq] at h'
    simp only [cycle, dispatch, ir_interrupt_handler, timer_init, sA_interrupt_handler,
      sB_interrupt_handler, sC_interrupt_handler, timeout_interrupt_handler, feedback,
      if_neg h, if_neg h']
    simp

/-- A run followed by one more cycle. -/
theorem cycles_concat (s : IsrState) (samples : List (Nat × Nat × Nat)) (t : Nat × Nat × Nat) :
    cycles s (samples ++ [t]) = cycle (cycles s samples) t := by
  simp [cycles, List.foldl_append]

/-- Filling phase: after `k ≤ n` cycles from start-up every count is `k` and
entry `i < k` of each buffer holds the ticks of cycle `i`. -/
theorem cycles_fill (n : Nat) (hn : 1 ≤ n ∧ n ≤ MAX_AVERAGES) :
    ∀ samples : List (Nat × Nat × Nat), samples.length ≤ n →
      (cycles (isrInit n) samples).count = n ∧
      (cycles (isrInit n) samples).g_timer_A_accumulated = samples.length ∧
      (cycles (isrInit n) samples).g_timer_B_accumulated = samples.length ∧
      (cycles (isrInit n) samples).g_timer_C_accumulated = samples.length ∧
      ∀ i t, samples[i]? = some t →
        (cycles (isrInit n) samples).g_timer_A_FIFO i = t.1 % 2 ^ 32 ∧
        (cycles (isrInit n) samples).g_timer_B_FIFO i = t.2.1 % 2 ^ 32 ∧
        (cycles (isrInit n) samples).g_timer_C_FIFO i = t.2.2 % 2 ^ 32 := by
  intro samples
  induction samples using List.reverseRecOn with
  | nil =>
    intro _
    refine ⟨rfl, rfl, rfl, rfl, ?_⟩
    intro i t h
    simp at h
  | append_singleton l t0 ih =>
    intro hlen
    rw [List.length_append, List.length_singleton] at hlen
    obtain ⟨hc, hA, hB, hC, hF⟩ := ih (by omega)
    obtain ⟨e0, eA, eB, eC, fA, fB, fC⟩ := cycle_effect (cycles (isrInit n) l) t0
    have hcap : ¬ atCapacity (cycles (isrInit n) l) = true := by
      unfold atCapacity
      rw [decide_eq_true_eq, hc, hA, hB, hC]
      omega
    unfold MAX_AVERAGES at hn
    rw [if_neg hcap] at eA eB eC fA fB fC
    rw [cycles_concat, List.length_append, List.length_singleton]
    refine ⟨by rw [e0, hc], ?_, ?_, ?_, ?_⟩
    · rw [eA, hA]; unfold addU32; omega
    · rw [eB, hB]; unfold addU32; omega
    · rw [eC, hC]; unfold addU32; omega
    · intro i t h
      rw [fA, fB, fC, hA, hB, hC]
      rcases Nat.lt_trichotomy i l.length with hi | hi | hi
      · rw [List.getElem?_append_left hi] at h
        obtain ⟨h1, h2, h3⟩ := hF i t h
        have hne : i ≠ l.length := by omega
        simp only [Function.update_noteq hne]
        exact ⟨h1, h2, h3⟩
      · subst hi
        rw [List.getElem?_concat_length] at h
        cases h
        simp only [Function.update_same]
        exact ⟨trivial, trivial, trivial⟩
      · have : (l ++ [t0])[i]? = none := by
          apply List.getElem?_eq_none
          rw [List.length_append, List.length_singleton]
          omega
        rw [this] at h
        cases h

/-- Rollover for every capacity: after `n` filling cycles one more cycle
leaves every count at 1 with the new ticks at index 0, and every entry at an
index `i ≥ 1` still holds the ticks of filling cycle `i`. -/
theorem rollover_after_capacity (n : Nat) (hn : 1 ≤ n ∧ n ≤ MAX_AVERAGES)
    (samples : List (Nat × Nat × Nat)) (hlen : samples.length = n) (last : Nat × Nat × Nat) :
    ((cycles (isrInit n) (samples ++ [last])).g_timer_A_accumulated = 1 ∧
      (cycles (isrInit n) (samples ++ [last])).g_timer_B_accumulated = 1 ∧
      (cycles (isrInit n) (samples ++ [last])).g_timer_C_accumulated = 1) ∧
    ((cycles (isrInit n) (samples ++ [last])).g_timer_A_FIFO 0 = last.1 % 2 ^ 32 ∧
      (cycles (isrInit n) (samples ++ [last])).g_timer_B_FIFO 0 = last.2.1 % 2 ^ 32 ∧
      (cycles (isrInit n) (samples ++ [last])).g_timer_C_FIFO 0 = last.2.2 % 2 ^ 32) ∧
    ∀ i t, 1 ≤ i → samples[i]? = some t →
      (cycles (isrInit n) (samples ++ [last])).g_timer_A_FIFO i = t.1 % 2 ^ 32 ∧
      (cycles (isrInit n) (samples ++ [last])).g_timer_B_FIFO i = t.2.1 % 2 ^ 32 ∧
      (cycles (isrInit n) (samples ++ [last])).g_timer_C_FIFO i = t.2.2 % 2 ^ 32 := by
  obtain ⟨hc, hA, hB, hC, hF⟩ := cycles_fill n hn samples (by omega)
  obtain ⟨e0, eA, eB, eC, fA, fB, fC⟩ := cycle_effect (cycles (isrInit n) samples) last
  have hcap : atCapacity (cycles (isrInit n) samples) = true := by
    unfold atCapacity
    rw [decide_eq_true_eq, hc, hA]
    exact Or.inl (by omega)
  rw [if_pos hcap] at eA eB eC fA fB fC
  rw [cycles_concat, eA, eB, eC, fA, fB, fC]
  refine ⟨⟨rfl, rfl, rfl⟩, ?_, ?_⟩
  · simp only [Function.update_same]
    exact ⟨trivial, trivial, trivial⟩
  · intro i t hi h
    have hne : i ≠ 0 := by omega
    simp only [Function.update_noteq hne]
    exact hF i t h

/-- The invariant holds at start-up. -/
theorem lengthInv_init (n : Nat) : LengthInv n (isrInit n) := by
  simp [LengthInv, isrInit]

/-- The watchdog handler keeps the capacity and the counts and leaves the three
capture timers disabled. -/
theorem timeout_frame (s : IsrState) :
    (timeout_interrupt_handler s).count = s.count ∧
    (timeout_interrupt_handler s).g_timer_A_accumulated = s.g_timer_A_accumulated ∧
    (timeout_interrupt_handler s).g_timer_B_accumulated = s.g_timer_B_accumulated ∧
    (timeout_interrupt_handler s).g_timer_C_accumulated = s.g_timer_C_accumulated ∧
    (timeout_interrupt_handler s).WTIMER0_TAEN = false ∧
    (timeout_interrupt_handler s).WTIMER0_TBEN = false ∧
    (timeout_interrupt_handler s).WTIMER1_TAEN = false := by
  obtain ⟨a, b, c, n, fA, fB, fC, ir, sa, sb, sc, e0, e1, e2, e3, v0, v1, v2, l, bs⟩ := s
  cases ir <;> cases sa <;> cases sb <;> cases sc <;> exact ⟨rfl, rfl, rfl, rfl, rfl, rfl, rfl⟩

/-- Every interrupt that can fire preserves the invariant. -/
theorem lengthInv_step (n : Nat) (hn : 1 ≤ n ∧ n ≤ MAX_AVERAGES) (s : IsrState) (ev : IsrEvent)
    (hs : LengthInv n s) (hev : ev.canFire s = true) : LengthInv n (dispatch s ev) := by
  obtain ⟨hc, hA, hB, hC, eA, eB, eC⟩ := hs
  unfold MAX_AVERAGES at hn
  cases ev with
  | trigger =>
    simp only [dispatch, ir_interrupt_handler, timer_init, LengthInv]
    split_ifs with h
    · simp only [hc] at h ⊢
      refine ⟨trivial, ?_, ?_, ?_, ?_, ?_, ?_⟩ <;> omega
    · simp only [hc] at h ⊢
      refine ⟨trivial, ?_, ?_, ?_, ?_, ?_, ?_⟩ <;> omega
  | captureA ticks =>
    have hlt := eA hev
    simp only [dispatch, sA_interrupt_handler, LengthInv, addU32]
    refine ⟨hc, ?_, hB, hC, ?_, eB, eC⟩
    · omega
    · intro h; cases h
  | captureB ticks =>
    have hlt := eB hev
    simp only [dispatch, sB_interrupt_handler, LengthInv, addU32]
    refine ⟨hc, hA, ?_, hC, eA, ?_, eC⟩
    · omega
    · intro h; cases h
  | captureC ticks =>
    have hlt := eC hev
    simp only [dispatch, sC_interrupt_handler, LengthInv, addU32]
    refine ⟨hc, hA, hB, ?_, eA, eB, ?_⟩
    · omega
    · intro h; cases h
  | watchdog =>
    obtain ⟨f0, f1, f2, f3, f4, f5, f6⟩ := timeout_frame s
    simp only [dispatch, LengthInv]
    rw [f0, f1, f2, f3, f4, f5, f6]
    refine ⟨hc, hA, hB, hC, ?_, ?_, ?_⟩ <;> (intro h; cases h)

/-- The invariant holds in every reachable state. -/
theorem lengthInv_of_reachable (n : Nat) (hn : 1 ≤ n ∧ n ≤ MAX_AVERAGES) (s : IsrState)
    (hs : Reachable n s) : LengthInv n s := by
  induction hs with
  | start => exact lengthInv_init n
  | step s ev _ hev ih => exact lengthInv_step n hn s ev ih hev

/-- C8: with a fixed capacity `N`, `1 ≤ N ≤ MAX_AVERAGES`, in every state
reachable from start-up by triggers, captures on enabled timers and watchdog
expiries, each sample count is at most `N`, so the index of the next buffer
write is below `MAX_FIFO_SIZE`. -/
theorem c8_count_le_capacity (N : Nat) (hN : 1 ≤ N ∧ N ≤ MAX_AVERAGES) (s : IsrState)
    (hs : Reachable N s) :
    (s.g_timer_A_accumulated ≤ N ∧ s.g_timer_B_accumulated ≤ N ∧
      s.g_timer_C_accumulated ≤ N) ∧
    (s.g_timer_A_accumulated < MAX_FIFO_SIZE ∧ s.g_timer_B_accumulated < MAX_FIFO_SIZE ∧
      s.g_timer_C_accumulated < MAX_FIFO_SIZE) := by
  obtain ⟨_, hA, hB, hC, _⟩ := lengthInv_of_reachable N hN s hs
  unfold MAX_AVERAGES at hN
  unfold MAX_FIFO_SIZE
  refine ⟨⟨hA, hB, hC⟩, ?_, ?_, ?_⟩ <;> omega

/-- Witness for C8: capacity 2, the state after a trigger and a capture on
channel A. -/
theorem c8_count_le_capacity_witness :
    (1 ≤ 2 ∧ 2 ≤ MAX_AVERAGES) ∧
    Reachable 2 (dispatch (dispatch (isrInit 2) IsrEvent.trigger) (IsrEvent.captureA 7)) ∧
    ((dispatch (dispatch (isrInit 2) IsrEvent.trigger)
        (IsrEvent.captureA 7)).g_timer_A_accumulated ≤ 2 ∧
      (dispatch (dispatch (isrInit 2) IsrEvent.trigger)
        (IsrEvent.captureA 7)).g_timer_B_accumulated ≤ 2 ∧
      (dispatch (dispatch (isrInit 2) IsrEvent.trigger)
        (IsrEvent.captureA 7)).g_timer_C_accumulated ≤ 2) ∧
    ((dispatch (dispatch (isrInit 2) IsrEvent.trigger)
        (IsrEvent.captureA 7)).g_timer_A_accumulated < MAX_FIFO_SIZE ∧
      (dispatch (dispatch (isrInit 2) IsrEvent.trigger)
        (IsrEvent.captureA 7)).g_timer_B_accumulated < MAX_FIFO_SIZE ∧
      (dispatch (dispatch (isrInit 2) IsrEvent.trigger)
        (IsrEvent.captureA 7)).g_timer_C_accumulated < MAX_FIFO_SIZE) :=
  have hr : Reachable 2 (dispatch (dispatch (isrInit 2) IsrEvent.trigger) (IsrEvent.captureA 7)) :=
    Reachable.step _ _ (Reachable.step _ _ Reachable.start rfl) rfl
  have h := c8_count_le_capacity 2 (by decide) _ hr
  ⟨by decide, hr, h.1, h.2⟩

/-- C9: after `ir_interrupt_handler` the three sample counts are all 0 when
at least one of them had reached `count`, and all unchanged otherwise; so
they are either all 0 or all unchanged. -/
theorem c9_reset_all_or_none (s : IsrState) :
    ((s.g_timer_A_accumulated ≥ s.count ∨ s.g_timer_B_accumulated ≥ s.count ∨
        s.g_timer_C_accumulated ≥ s.count) →
      (ir_interrupt_handler s).g_timer_A_accumulated = 0 ∧
      (ir_interrupt_handler s).g_timer_B_accumulated = 0 ∧
      (ir_interrupt_handler s).g_timer_C_accumulated = 0) ∧
    (¬ (s.g_timer_A_accumulated ≥ s.count ∨ s.g_timer_B_accumulated ≥ s.count ∨
        s.g_timer_C_accumulated ≥ s.count) →
      (ir_interrupt_handler s).g_timer_A_accumulated = s.g_timer_A_accumulated ∧
      (ir_interrupt_handler s).g_timer_B_accumulated = s.g_timer_B_accumulated ∧
      (ir_interrupt_handler s).g_timer_C_accumulated = s.g_timer_C_accumulated) ∧
    (((ir_interrupt_handler s).g_timer_A_accumulated = 0 ∧
        (ir_interrupt_handler s).g_timer_B_accumulated = 0 ∧
        (ir_interrupt_handler s).g_timer_C_accumulated = 0) ∨
      ((ir_interrupt_handler s).g_timer_A_accumulated = s.g_timer_A_accumulated ∧
        (ir_interrupt_handler s).g_timer_B_accumulated = s.g_timer_B_accumulated ∧
        (ir_interrupt_handler s).g_timer_C_accumulated = s.g_timer_C_accumulated)) := by
  simp only [ir_interrupt_handler, timer_init]
  by_cases h : s.g_timer_A_accumulated ≥ s.count ∨ s.g_timer_B_accumulated ≥ s.count ∨
      s.g_timer_C_accumulated ≥ s.count
  · rw [if_pos h]
    exact ⟨fun _ => ⟨rfl, rfl, rfl⟩, fun hn => absurd h hn, Or.inl ⟨rfl, rfl, rfl⟩⟩
  · rw [if_neg h]
    exact ⟨fun hp => absurd hp h, fun _ => ⟨rfl, rfl, rfl⟩, Or.inr ⟨rfl, rfl, rfl⟩⟩

/-- The categories the watchdog handler hands to `beep_now`, in order. -/
theorem timeout_beeps (s : IsrState) :
    (timeout_interrupt_handler s).beeps = s.beeps ++
      ((if s.ir_in && !(s.sA_in && s.sB_in && s.sC_in) then [beep_t.BEEP_ERROR] else []) ++
        (if s.ir_in then [beep_t.BEEP_IR_INT] else []) ++
        (if s.sA_in then [beep_t.BEEP_US_A_INT] else []) ++
        (if s.sB_in then [beep_t.BEEP_US_B_INT] else []) ++
        (if s.sC_in then [beep_t.BEEP_US_C_INT] else [])) := by
  obtain ⟨a, b, c, n, fA, fB, fC, ir, sa, sb, sc, e0, e1, e2, e3, v0, v1, v2, l, bs⟩ := s
  cases ir <;> cases sa <;> cases sb <;> cases sc <;>
    simp [timeout_interrupt_handler, timer_init, feedback]

/-- The categories emitted by one watchdog expiry. -/
theorem timeout_emitted (s : IsrState) :
    emitted s (timeout_interrupt_handler s) =
      ((if s.ir_in && !(s.sA_in && s.sB_in && s.sC_in) then [beep_t.BEEP_ERROR] else []) ++
        (if s.ir_in then [beep_t.BEEP_IR_INT] else []) ++
        (if s.sA_in then [beep_t.BEEP_US_A_INT] else []) ++
        (if s.sB_in then [beep_t.BEEP_US_B_INT] else []) ++
        (if s.sC_in then [beep_t.BEEP_US_C_INT] else [])) := by
  unfold emitted
  rw [timeout_beeps, List.drop_left]

/-- C10: when the watchdog expires after a trigger (`ir_in` set), the handler
emits the error category exactly when some channel did not complete, and the
response category of a channel exactly when that channel completed; hence the
number of channels without a response category is 3 minus the number of
completed channels (1 for two completed, 3 for none). -/
theorem c10_watchdog_report (s : IsrState) (hir : s.ir_in = true) :
    (beep_t.BEEP_ERROR ∈ emitted s (timeout_interrupt_handler s) ↔
      ¬ (s.sA_in = true ∧ s.sB_in = true ∧ s.sC_in = true)) ∧
    (beep_t.BEEP_US_A_INT ∈ emitted s (timeout_interrupt_handler s) ↔ s.sA_in = true) ∧
    (beep_t.BEEP_US_B_INT ∈ emitted s (timeout_interrupt_handler s) ↔ s.sB_in = true) ∧
    (beep_t.BEEP_US_C_INT ∈ emitted s (timeout_interrupt_handler s) ↔ s.sC_in = true) ∧
    ([beep_t.BEEP_US_A_INT, beep_t.BEEP_US_B_INT, beep_t.BEEP_US_C_INT].filter
        (fun c => decide (c ∉ emitted s (timeout_interrupt_handler s)))).length
      = 3 - [s.sA_in, s.sB_in, s.sC_in].count true := by
  rw [timeout_emitted, hir]
  cases s.sA_in <;> cases s.sB_in <;> cases s.sC_in <;> decide

/-- Witness for C10: after a trigger and captures on channels A and C the
watchdog reports the error category and one missing channel. -/
theorem c10_watchdog_report_witness :
    (dispatch (dispatch (dispatch (isrInit 2) IsrEvent.trigger) (IsrEvent.captureA 7))
      (IsrEvent.captureC 9)).ir_in = true ∧
    emitted
      (dispatch (dispatch (dispatch (isrInit 2) IsrEvent.trigger) (IsrEvent.captureA 7))
        (IsrEvent.captureC 9))
      (timeout_interrupt_handler
        (dispatch (dispatch (dispatch (isrInit 2) IsrEvent.trigger) (IsrEvent.captureA 7))
          (IsrEvent.captureC 9)))
      = [beep_t.BEEP_ERROR, beep_t.BEEP_IR_INT, beep_t.BEEP_US_A_INT, beep_t.BEEP_US_C_INT] ∧
    ([beep_t.BEEP_US_A_INT, beep_t.BEEP_US_B_INT, beep_t.BEEP_US_C_INT].filter
        (fun c => decide (c ∉ emitted
          (dispatch (dispatch (dispatch (isrInit 2) IsrEvent.trigger) (IsrEvent.captureA 7))
            (IsrEvent.captureC 9))
          (timeout_interrupt_handler
            (dispatch (dispatch (dispatch (isrInit 2) IsrEvent.trigger) (IsrEvent.captureA 7))
              (IsrEvent.captureC 9)))))).length = 1 :=
  ⟨rfl, by decide,
    (c10_watchdog_report
      (dispatch (dispatch (dispatch (isrInit 2) IsrEvent.trigger) (IsrEvent.captureA 7))
        (IsrEvent.captureC 9)) rfl).2.2.2.2⟩

/-- The watchdog handler keeps the three buffers and the three counts. -/
theorem timeout_buffers (s : IsrState) :
    (timeout_interrupt_handler s).g_timer_A_FIFO = s.g_timer_A_FIFO ∧
    (timeout_interrupt_handler s).g_timer_B_FIFO = s.g_timer_B_FIFO ∧
    (timeout_interrupt_handler s).g_timer_C_FIFO = s.g_timer_C_FIFO ∧
    (timeout_interrupt_handler s).g_timer_A_accumulated = s.g_timer_A_accumulated ∧
    (timeout_interrupt_handler s).g_timer_B_accumulated = s.g_timer_B_accumulated ∧
    (timeout_interrupt_handler s).g_timer_C_accumulated = s.g_timer_C_accumulated := by
  obtain ⟨a, b, c, n, fA, fB, fC, ir, sa, sb, sc, e0, e1, e2, e3, v0, v1, v2, l, bs⟩ := s
  cases ir <;> cases sa <;> cases sb <;> cases sc <;> exact ⟨rfl, rfl, rfl, rfl, rfl, rfl⟩

/-- C11: `timeout_interrupt_handler` changes no entry of the three sample
buffers and none of the three sample counts, whichever channels completed (in
particular when none did). -/
theorem c11_watchdog_keeps_buffers (s : IsrState) :
    (timeout_interrupt_handler s).g_timer_A_FIFO = s.g_timer_A_FIFO ∧
    (timeout_interrupt_handler s).g_timer_B_FIFO = s.g_timer_B_FIFO ∧
    (timeout_interrupt_handler s).g_timer_C_FIFO = s.g_timer_C_FIFO ∧
    (timeout_interrupt_handler s).g_timer_A_accumulated = s.g_timer_A_accumulated ∧
    (timeout_interrupt_handler s).g_timer_B_accumulated = s.g_timer_B_accumulated ∧
    (timeout_interrupt_handler s).g_timer_C_accumulated = s.g_timer_C_accumulated := by
  obtain ⟨a, b, c, n, fA, fB, fC, ir, sa, sb, sc, e0, e1, e2, e3, v0, v1, v2, l, bs⟩ := s
  cases ir <;> cases sa <;> cases sb <;> cases sc <;> exact ⟨rfl, rfl, rfl, rfl, rfl, rfl⟩

/-- C12 (counterexample): with capacity 2, a cycle in which only channel A
captures (7 ticks) and the watchdog then expires leaves count A at 1 and the
sample in buffer A, while at the trigger count A was 0 and the entry 0; the
counts of B and C stay 0, so the three counts are no longer equal. -/
theorem c12_partial_cycle_is_kept :
    (dispatch (isrInit 2) IsrEvent.trigger).g_timer_A_accumulated = 0 ∧
    (dispatch (isrInit 2) IsrEvent.trigger).g_timer_A_FIFO 0 = 0 ∧
    midCycleState.sB_in = false ∧ midCycleState.sC_in = false ∧
    (timeout_interrupt_handler midCycleState).g_timer_A_accumulated = 1 ∧
    (timeout_interrupt_handler midCycleState).g_timer_A_FIFO 0 = 7 ∧
    (timeout_interrupt_handler midCycleState).g_timer_B_accumulated = 0 ∧
    (timeout_interrupt_handler midCycleState).g_timer_C_accumulated = 0 ∧
    timeout_interrupt_handler midCycleState = partialCycle (isrInit 2) (some 7) none none := by
  refine ⟨by decide, by decide, by decide, by decide, by decide, by decide, by decide,
    by decide, rfl⟩

/-- C12 (amended): nothing is rolled back. After a cycle closed by the
watchdog, relative to the state the trigger handler left, each channel that
completed has its ticks stored at its old count and its count increased by 1
(modulo `2³²`), and each channel that did not complete has its buffer and
count unchanged. -/
theorem c12_partial_cycle_effect (s : IsrState) (a b c : Option Nat) :
    (partialCycle s a b c).g_timer_A_FIFO
      = (match a with
        | some ticks => Function.update (ir_interrupt_handler s).g_timer_A_FIFO
            (ir_interrupt_handler s).g_timer_A_accumulated (ticks % 2 ^ 32)
        | none => (ir_interrupt_handler s).g_timer_A_FIFO) ∧
    (partialCycle s a b c).g_timer_B_FIFO
      = (match b with
        | some ticks => Function.update (ir_interrupt_handler s).g_timer_B_FIFO
            (ir_interrupt_handler s).g_timer_B_accumulated (ticks % 2 ^ 32)
        | none => (ir_interrupt_handler s).g_timer_B_FIFO) ∧
    (partialCycle s a b c).g_timer_C_FIFO
      = (match c with
        | some ticks => Function.update (ir_interrupt_handler s).g_timer_C_FIFO
            (ir_interrupt_handler s).g_timer_C_accumulated (ticks % 2 ^ 32)
        | none => (ir_interrupt_handler s).g_timer_C_FIFO) ∧
    (partialCycle s a b c).g_timer_A_accumulated
      = (match a with
        | some _ => addU32 (ir_interrupt_handler s).g_timer_A_accumulated 1
        | none => (ir_interrupt_handler s).g_timer_A_accumulated) ∧
    (partialCycle s a b c).g_timer_B_accumulated
      = (match b with
        | some _ => addU32 (ir_interrupt_handler s).g_timer_B_accumulated 1
        | none => (ir_interrupt_handler s).g_timer_B_accumulated) ∧
    (partialCycle s a b c).g_timer_C_accumulated
      = (match c with
        | some _ => addU32 (ir_interrupt_handler s).g_timer_C_accumulated 1
        | none => (ir_interrupt_handler s).g_timer_C_accumulated) := by
  cases a <;> cases b <;> cases c <;>
    (simp only [partialCycle, dispatch]
     rw [(timeout_buffers _).1, (timeout_buffers _).2.1, (timeout_buffers _).2.2.1,
       (timeout_buffers _).2.2.2.1, (timeout_buffers _).2.2.2.2.1,
       (timeout_buffers _).2.2.2.2.2]
     exact ⟨rfl, rfl, rfl, rfl, rfl, rfl⟩)

/-- One interrupt other than the trigger, met with the capture timer of `ch`
disabled, is not a capture of `ch` and leaves the buffer, the count and the
enable bit of `ch` as they are. -/
theorem dispatch_keeps_disabled_channel (ch : Channel) (s : IsrState) (ev : IsrEvent)
    (hen : ch.timerEnabled s = false) (hne : ev ≠ IsrEvent.trigger)
    (hf : ev.canFire s = true) :
    (∀ ticks, ev ≠ ch.capture ticks) ∧
    ch.fifo (dispatch s ev) = ch.fifo s ∧
    ch.accumulated (dispatch s ev) = ch.accumulated s ∧
    ch.timerEnabled (dispatch s ev) = false := by
  have hb := timeout_buffers s
  have hfr := timeout_frame s
  cases ch <;> cases ev <;>
    simp_all [Channel.timerEnabled, Channel.capture, Channel.fifo, Channel.accumulated,
      IsrEvent.canFire, dispatch, sA_interrupt_handler, sB_interrupt_handler,
      sC_interrupt_handler]

/-- A run of interrupts without a trigger, started with the capture timer of
`ch` disabled, contains no capture of `ch` and leaves its buffer and count
unchanged. -/
theorem dispatchAll_keeps_disabled_channel (ch : Channel) (evs : List IsrEvent) :
    ∀ s r : IsrState, ch.timerEnabled s = false → IsrEvent.trigger ∉ evs →
      dispatchAll s evs = some r →
      (∀ ticks, ch.capture ticks ∉ evs) ∧ ch.fifo r = ch.fifo s ∧
      ch.accumulated r = ch.accumulated s ∧ ch.timerEnabled r = false := by
  induction evs with
  | nil =>
    intro s r hen _ hrun
    simp only [dispatchAll, Option.some.injEq] at hrun
    subst hrun
    exact ⟨fun _ h => (List.not_mem_nil _ h), rfl, rfl, hen⟩
  | cons ev evs ih =>
    intro s r hen hno hrun
    have hne : ev ≠ IsrEvent.trigger := fun h => hno (by rw [h]; exact List.mem_cons_self _ _)
    have hno2 : IsrEvent.trigger ∉ evs := fun h => hno (List.mem_cons_of_mem _ h)
    by_cases hf : ev.canFire s = true
    · simp only [dispatchAll, hf, if_true] at hrun
      obtain ⟨k1, k2, k3, k4⟩ := dispatch_keeps_disabled_channel ch s ev hen hne hf
      obtain ⟨j1, j2, j3, j4⟩ := ih (dispatch s ev) r k4 hno2 hrun
      refine ⟨?_, by rw [j2, k2], by rw [j3, k3], j4⟩
      intro ticks hmem
      rcases List.mem_cons.1 hmem with h | h
      · exact k1 ticks h.symm
      · exact j1 ticks h
    · simp only [dispatchAll, hf] at hrun
      cases hrun

/-- The capture handler of a channel clears the enable bit of its timer. -/
theorem handler_disables_timer (ch : Channel) (s : IsrState) :
    ch.timerEnabled (ch.handler s) = false := by
  cases ch <;> rfl

/-- C13 (counterexample): in `midCycleState` the flag `sA_in` is set; a
further capture of 9 ticks handled by `sA_interrupt_handler` raises count A
from 1 to 2 and stores 9 at index 1. -/
theorem c13_handler_has_no_guard :
    midCycleState.sA_in = true ∧ midCycleState.g_timer_A_accumulated = 1 ∧
    midCycleState.g_timer_A_FIFO 1 = 0 ∧
    (sA_interrupt_handler { midCycleState with WTIMER0_TAV := 9 }).g_timer_A_accumulated = 2 ∧
    (sA_interrupt_handler { midCycleState with WTIMER0_TAV := 9 }).g_timer_A_FIFO 1 = 9 := by
  decide

/-- C13 (amended): the capture handler of channel X leaves X's timer disabled,
so in every run of interrupts that follows it and contains no trigger there is
no capture of X, and X's buffer and sample count stay as the handler left
them. -/
theorem c13_no_second_capture_before_trigger (ch : Channel) (s r : IsrState)
    (evs : List IsrEvent) (hno : IsrEvent.trigger ∉ evs)
    (hrun : dispatchAll (ch.handler s) evs = some r) :
    ch.timerEnabled (ch.handler s) = false ∧
    (∀ ticks, (ch.capture ticks).canFire (ch.handler s) = false) ∧
    (∀ ticks, ch.capture ticks ∉ evs) ∧
    ch.fifo r = ch.fifo (ch.handler s) ∧
    ch.accumulated r = ch.accumulated (ch.handler s) := by
  have hen := handler_disables_timer ch s
  obtain ⟨h1, h2, h3, _⟩ := dispatchAll_keeps_disabled_channel ch evs (ch.handler s) r hen hno hrun
  refine ⟨hen, ?_, h1, h2, h3⟩
  intro ticks
  cases ch <;> exact hen

/-- Witness for C13 (amended): after the capture of channel A in
`midCycleState`, captures of B and C and the watchdog leave buffer A and
count A unchanged. -/
theorem c13_no_second_capture_before_trigger_witness :
    IsrEvent.trigger ∉ [IsrEvent.captureB 8, IsrEvent.captureC 9, IsrEvent.watchdog] ∧
    dispatchAll (Channel.A.handler { dispatch (isrInit 2) IsrEvent.trigger with WTIMER0_TAV := 7 })
      [IsrEvent.captureB 8, IsrEvent.captureC 9, IsrEvent.watchdog]
      = some (cycle (isrInit 2) (7, 8, 9)) ∧
    Channel.A.fifo (cycle (isrInit 2) (7, 8, 9))
      = Channel.A.fifo
          (Channel.A.handler { dispatch (isrInit 2) IsrEvent.trigger with WTIMER0_TAV := 7 }) ∧
    Channel.A.accumulated (cycle (isrInit 2) (7, 8, 9))
      = Channel.A.accumulated
          (Channel.A.handler { dispatch (isrInit 2) IsrEvent.trigger with WTIMER0_TAV := 7 }) :=
  have hno : IsrEvent.trigger ∉ [IsrEvent.captureB 8, IsrEvent.captureC 9, IsrEvent.watchdog] := by
    decide
  have hrun : dispatchAll
      (Channel.A.handler { dispatch (isrInit 2) IsrEvent.trigger with WTIMER0_TAV := 7 })
      [IsrEvent.captureB 8, IsrEvent.captureC 9, IsrEvent.watchdog]
      = some (cycle (isrInit 2) (7, 8, 9)) := rfl
  have h := c13_no_second_capture_before_trigger Channel.A
    { dispatch (isrInit 2) IsrEvent.trigger with WTIMER0_TAV := 7 }
    (cycle (isrInit 2) (7, 8, 9)) _ hno hrun
  ⟨hno, hrun, h.2.2.2.1, h.2.2.2.2⟩

/-- C14: running `ir_interrupt_handler` twice in a row gives the same state as
running it once. -/
theorem c14_arm_idempotent (s : IsrState) :
    ir_interrupt_handler (ir_interrupt_handler s) = ir_interrupt_handler s := by
  obtain ⟨a, b, c, n, fA, fB, fC, ir, sa, sb, sc, e0, e1, e2, e3, v0, v1, v2, l, bs⟩ := s
  simp only [ir_interrupt_handler, timer_init]
  by_cases h : a ≥ n ∨ b ≥ n ∨ c ≥ n
  · simp only [if_pos h]
    split_ifs <;> rfl
  · simp only [if_neg h]

/-- The trigger handler sets `ir_in` and does not touch the completed flags. -/
theorem ir_handler_flags (s : IsrState) :
    (ir_interrupt_handler s).ir_in = true ∧
    (ir_interrupt_handler s).sA_in = s.sA_in ∧
    (ir_interrupt_handler s).sB_in = s.sB_in ∧
    (ir_interrupt_handler s).sC_in = s.sC_in := by
  unfold ir_interrupt_handler timer_init
  by_cases h : s.g_timer_A_accumulated ≥ s.count ∨ s.g_timer_B_accumulated ≥ s.count ∨
      s.g_timer_C_accumulated ≥ s.count
  · simp only [if_pos h, and_self]
  · simp only [if_neg h, and_self]

/-- The watchdog handler leaves the four cycle flags false. -/
theorem timeout_flags_cleared (s : IsrState) :
    (timeout_interrupt_handler s).ir_in = false ∧
    (timeout_interrupt_handler s).sA_in = false ∧
    (timeout_interrupt_handler s).sB_in = false ∧
    (timeout_interrupt_handler s).sC_in = false := by
  obtain ⟨a, b, c, n, fA, fB, fC, ir, sa, sb, sc, e0, e1, e2, e3, v0, v1, v2, l, bs⟩ := s
  cases ir <;> cases sa <;> cases sb <;> cases sc <;> exact ⟨rfl, rfl, rfl, rfl⟩

/-- C15 (counterexample): a second trigger before the watchdog has closed the
cycle in which channel A completed leaves `sA_in` set. -/
theorem c15_flag_survives_trigger :
    midCycleState.sA_in = true ∧ (ir_interrupt_handler midCycleState).sA_in = true ∧
    (ir_interrupt_handler midCycleState).sA_in ≠ false := by
  decide

/-- C15 (amended): `ir_interrupt_handler` sets `ir_in` and leaves `sA_in`,
`sB_in` and `sC_in` as they were; after a cycle that was closed by
`timeout_interrupt_handler` the three flags are false after the trigger. -/
theorem c15_trigger_keeps_completed_flags (s : IsrState) :
    ((ir_interrupt_handler s).ir_in = true ∧
      (ir_interrupt_handler s).sA_in = s.sA_in ∧
      (ir_interrupt_handler s).sB_in = s.sB_in ∧
      (ir_interrupt_handler s).sC_in = s.sC_in) ∧
    ((ir_interrupt_handler (timeout_interrupt_handler s)).sA_in = false ∧
      (ir_interrupt_handler (timeout_interrupt_handler s)).sB_in = false ∧
      (ir_interrupt_handler (timeout_interrupt_handler s)).sC_in = false) := by
  obtain ⟨_, hA, hB, hC⟩ := ir_handler_flags (timeout_interrupt_handler s)
  obtain ⟨_, tA, tB, tC⟩ := timeout_flags_cleared s
  exact ⟨ir_handler_flags s, by rw [hA, tA], by rw [hB, tB], by rw [hC, tC]⟩

/-- C17: after `timeout_interrupt_handler` the flags `ir_in`, `sA_in`, `sB_in`
and `sC_in` are false and the enable bits of the three capture timers and of
the watchdog timer are clear, for every prior state. -/
theorem c17_watchdog_closes_cycle (s : IsrState) :
    ((timeout_interrupt_handler s).ir_in = false ∧
      (timeout_interrupt_handler s).sA_in = false ∧
      (timeout_interrupt_handler s).sB_in = false ∧
      (timeout_interrupt_handler s).sC_in = false) ∧
    ((timeout_interrupt_handler s).WTIMER0_TAEN = false ∧
      (timeout_interrupt_handler s).WTIMER0_TBEN = false ∧
      (timeout_interrupt_handler s).WTIMER1_TAEN = false ∧
      (timeout_interrupt_handler s).WTIMER3_TAEN = false) := by
  refine ⟨timeout_flags_cleared s, ?_⟩
  obtain ⟨a, b, c, n, fA, fB, fC, ir, sa, sb, sc, e0, e1, e2, e3, v0, v1, v2, l, bs⟩ := s
  cases ir <;> cases sa <;> cases sb <;> cases sc <;> exact ⟨rfl, rfl, rfl, rfl⟩

/-- The printed variances of `calculate_variance` in terms of the state it
leaves and of the guarded depth. -/
theorem calculate_variance_divides_by_guarded_depth (s : CmdState) (fifoA fifoB fifoC : Fifo) :
    (calculate_variance s fifoA fifoB fifoC).variance_A
      = numeratorLoop fifoA (calculate_variance s fifoA fifoB fifoC).state.g_distance_A
          (ASSERT (readEeprom s.eeprom TC_AVG))
        / ((ASSERT (readEeprom s.eeprom TC_AVG) : Nat) : ℚ) ∧
    (calculate_variance s fifoA fifoB fifoC).variance_B
      = numeratorLoop fifoB (calculate_variance s fifoA fifoB fifoC).state.g_distance_B
          (ASSERT (readEeprom s.eeprom TC_AVG))
        / ((ASSERT (readEeprom s.eeprom TC_AVG) : Nat) : ℚ) ∧
    (calculate_variance s fifoA fifoB fifoC).variance_C
      = numeratorLoop fifoC (calculate_variance s fifoA fifoB fifoC).state.g_distance_C
          (ASSERT (readEeprom s.eeprom TC_AVG))
        / ((ASSERT (readEeprom s.eeprom TC_AVG) : Nat) : ℚ) := by
  unfold calculate_variance
  simp only []
  by_cases hc : s.g_distance_A = 0 ∨ s.g_distance_C = 0 ∨ s.g_distance_C = 0
  · rw [if_pos hc]
    refine ⟨?_, ?_, ?_⟩ <;> split_ifs <;> rfl
  · rw [if_neg hc]
    refine ⟨?_, ?_, ?_⟩ <;> split_ifs <;> rfl

/-- C18: for every stored depth `v` the guarded depth `ASSERT v` lies in
`1..MAX_AVERAGES`, is 1 when `v` is 0 or above `MAX_AVERAGES` (which includes
the words that are negative as signed integers) and is `v` when
`1 ≤ v ≤ MAX_AVERAGES`; `calculate_distance` and `calculate_variance` divide by
the guarded depth of the stored word, which is not zero. -/
theorem c18_depth_guard (v : Nat) (s : CmdState) (fifoA fifoB fifoC : Fifo) :
    (1 ≤ ASSERT v ∧ ASSERT v ≤ MAX_AVERAGES) ∧
    ((v = 0 ∨ v > MAX_AVERAGES) → ASSERT v = 1) ∧
    ((1 ≤ v ∧ v ≤ MAX_AVERAGES) → ASSERT v = v) ∧
    (2 ^ 31 ≤ v → ASSERT v = 1) ∧
    ((ASSERT (readEeprom s.eeprom TC_AVG) : Nat) : ℚ) ≠ 0 ∧
    ((calculate_distance s fifoA fifoB fifoC).g_average_A
        = sumLoop fifoA (ASSERT (readEeprom s.eeprom TC_AVG))
          / ((ASSERT (readEeprom s.eeprom TC_AVG) : Nat) : ℚ) ∧
      (calculate_distance s fifoA fifoB fifoC).g_average_B
        = sumLoop fifoB (ASSERT (readEeprom s.eeprom TC_AVG))
          / ((ASSERT (readEeprom s.eeprom TC_AVG) : Nat) : ℚ) ∧
      (calculate_distance s fifoA fifoB fifoC).g_average_C
        = sumLoop fifoC (ASSERT (readEeprom s.eeprom TC_AVG))
          / ((ASSERT (readEeprom s.eeprom TC_AVG) : Nat) : ℚ)) ∧
    ((calculate_variance s fifoA fifoB fifoC).variance_A
        = numeratorLoop fifoA (calculate_variance s fifoA fifoB fifoC).state.g_distance_A
            (ASSERT (readEeprom s.eeprom TC_AVG))
          / ((ASSERT (readEeprom s.eeprom TC_AVG) : Nat) : ℚ) ∧
      (calculate_variance s fifoA fifoB fifoC).variance_B
        = numeratorLoop fifoB (calculate_variance s fifoA fifoB fifoC).state.g_distance_B
            (ASSERT (readEeprom s.eeprom TC_AVG))
          / ((ASSERT (readEeprom s.eeprom TC_AVG) : Nat) : ℚ) ∧
      (calculate_variance s fifoA fifoB fifoC).variance_C
        = numeratorLoop fifoC (calculate_variance s fifoA fifoB fifoC).state.g_distance_C
            (ASSERT (readEeprom s.eeprom TC_AVG))
          / ((ASSERT (readEeprom s.eeprom TC_AVG) : Nat) : ℚ)) := by
  have range : ∀ w : Nat, 1 ≤ ASSERT w ∧ ASSERT w ≤ MAX_AVERAGES := by
    intro w
    unfold ASSERT MAX_AVERAGES
    split_ifs with h <;> omega
  refine ⟨range v, ?_, ASSERT_of_valid v, ?_, ?_, ⟨rfl, rfl, rfl⟩,
    calculate_variance_divides_by_guarded_depth s fifoA fifoB fifoC⟩
  · intro h
    unfold ASSERT MAX_AVERAGES at *
    split_ifs with h2 <;> omega
  · intro h
    unfold ASSERT MAX_AVERAGES
    split_ifs with h2 <;> omega
  · have h := (range (readEeprom s.eeprom TC_AVG)).1
    have : 0 < ASSERT (readEeprom s.eeprom TC_AVG) := h
    exact_mod_cast this.ne'

/-- For stored words whose difference fits a signed 32-bit integer, the
32-bit difference is the difference of the words. -/
theorem toInt32_subU32_exact (hi lo : Nat) (hhi : hi < 2 ^ 32) (hlo : lo < 2 ^ 32)
    (hfit : -(2 : Int) ^ 31 ≤ (hi : Int) - lo ∧ (hi : Int) - lo < 2 ^ 31) :
    toInt32 (subU32 hi lo) = (hi : Int) - lo := by
  unfold toInt32 subU32
  split_ifs with h <;> omega

/-- C20: when `g_values_acceptable` is false `calculate_coordinates` reports
only the rejection message: no `(x, y)` is computed and no row is written to
the display. This is the outcome at power-on, and still after
`calculate_distance`, that is before any variance has been computed. -/
theorem c20_rejected_when_not_acceptable (s : CmdState) (e : Eeprom)
    (fifoA fifoB fifoC : Fifo) (h : s.g_values_acceptable = false) :
    calculate_coordinates s = CoordReport.varianceOutOfBounds ∧
    (∀ x y : Int, calculate_coordinates s ≠ CoordReport.position x y) ∧
    lcdRows (calculate_coordinates s) = [] ∧
    calculate_coordinates (powerOn e) = CoordReport.varianceOutOfBounds ∧
    calculate_coordinates (calculate_distance (powerOn e) fifoA fifoB fifoC)
      = CoordReport.varianceOutOfBounds := by
  have hs : calculate_coordinates s = CoordReport.varianceOutOfBounds := by
    simp [calculate_coordinates, h]
  refine ⟨hs, ?_, ?_, ?_, ?_⟩
  · intro x y hxy
    rw [hs] at hxy
    cases hxy
  · rw [hs]; rfl
  · simp [calculate_coordinates, powerOn]
  · simp [calculate_coordinates, powerOn, calculate_distance]

/-- Witness for C20: the power-on state over the store of the scenario. -/
theorem c20_rejected_when_not_acceptable_witness :
    (powerOn (storeOf 0 200 0 300 0)).g_values_acceptable = false ∧
    calculate_coordinates (powerOn (storeOf 0 200 0 300 0)) = CoordReport.varianceOutOfBounds ∧
    lcdRows (calculate_coordinates (powerOn (storeOf 0 200 0 300 0))) = [] :=
  have h := c20_rejected_when_not_acceptable (powerOn (storeOf 0 200 0 300 0))
    (storeOf 0 200 0 300 0) (constFifo 0) (constFifo 0) (constFifo 0) rfl
  ⟨rfl, h.1, h.2.2.1⟩

/-- C21 (failing input): with the stored depth 50 start-up leaves
`count = 50`, above `MAX_AVERAGES` (and above `MAX_FIFO_SIZE`); the command
"average 0" is accepted and leaves `count = 0`, below 1. -/
theorem c21_capacity_out_of_bounds :
    main_load_count (storeOf 0 0 0 0 50) = 50 ∧ ¬ (50 ≤ MAX_AVERAGES) ∧ ¬ (50 ≤ MAX_FIFO_SIZE) ∧
    (average_command { eeprom := storeOf 0 0 0 0 5, count := 5 } 0).count = 0 ∧
    readEeprom (average_command { eeprom := storeOf 0 0 0 0 5, count := 5 } 0).eeprom TC_AVG = 0 ∧
    ¬ (1 ≤ (average_command { eeprom := storeOf 0 0 0 0 5, count := 5 } 0).count) := by
  decide

/-- The bounds the two paths do enforce: start-up gives `count ≥ 1`, the
"average" command gives `count ≤ MAX_AVERAGES` when the old count was, and an
argument above `MAX_AVERAGES` (as an unsigned word, so also every negative
argument) leaves the count and the store unchanged. -/
theorem capacity_bounds_enforced (e : Eeprom) (s : AverageState) (arg : Int) :
    1 ≤ main_load_count e ∧
    (s.count ≤ MAX_AVERAGES → (average_command s arg).count ≤ MAX_AVERAGES) ∧
    (toU32 arg > MAX_AVERAGES → average_command s arg = s) ∧
    (arg < 0 → -(2 : Int) ^ 31 ≤ arg → average_command s arg = s) := by
  refine ⟨?_, ?_, ?_, ?_⟩
  · unfold main_load_count
    simp only []
    split_ifs with h <;> omega
  · intro h
    unfold average_command
    simp only []
    split_ifs with h2
    · exact h
    · exact Nat.le_of_not_gt h2
  · intro h
    unfold average_command
    simp only []
    rw [if_pos h]
  · intro h1 h2
    have h : toU32 arg > MAX_AVERAGES := by
      unfold toU32 MAX_AVERAGES
      omega
    unfold average_command
    simp only []
    rw [if_pos h]

/-- The guarded depth never exceeds the length of a buffer. -/
theorem ASSERT_le_fifo_size (v : Nat) : ASSERT v ≤ MAX_FIFO_SIZE := by
  unfold ASSERT MAX_AVERAGES MAX_FIFO_SIZE
  split_ifs with h <;> omega

/-- On a buffer whose entries are all zero the cached distance is 0. -/
theorem distance_of_empty (fifo : Fifo) (v : Nat)
    (h : ∀ i, i < MAX_FIFO_SIZE → fifo i = 0) :
    truncU32 (sumLoop fifo (ASSERT v) / ((ASSERT v : Nat) : ℚ) * CONVERSION_CONSTANT) = 0 := by
  have hs : sumLoop fifo (ASSERT v) = ((ASSERT v : Nat) : ℚ) * ((0 : Nat) : ℚ) :=
    sumLoop_const fifo 0 (ASSERT v)
      (fun i hi => h i (Nat.lt_of_lt_of_le hi (ASSERT_le_fifo_size v)))
  rw [hs, truncU32_eq_floor]
  simp

/-- On a buffer whose entries are all zero, with the cached distance 0, the
variance is 0. -/
theorem variance_of_empty (fifo : Fifo) (v : Nat)
    (h : ∀ i, i < MAX_FIFO_SIZE → fifo i = 0) :
    numeratorLoop fifo 0 (ASSERT v) / ((ASSERT v : Nat) : ℚ) = 0 := by
  have hs := numeratorLoop_const fifo 0 0 (ASSERT v)
    (fun i hi => h i (Nat.lt_of_lt_of_le hi (ASSERT_le_fifo_size v)))
  rw [hs]
  simp

/-- The run `estimate` on three buffers whose entries are all zero. -/
theorem estimate_of_empty (s : CmdState) (fifoA fifoB fifoC : Fifo)
    (hA : ∀ i, i < MAX_FIFO_SIZE → fifoA i = 0)
    (hB : ∀ i, i < MAX_FIFO_SIZE → fifoB i = 0)
    (hC : ∀ i, i < MAX_FIFO_SIZE → fifoC i = 0) :
    ((estimate s fifoA fifoB fifoC).state.g_distance_A = 0 ∧
      (estimate s fifoA fifoB fifoC).state.g_distance_B = 0 ∧
      (estimate s fifoA fifoB fifoC).state.g_distance_C = 0) ∧
    ((estimate s fifoA fifoB fifoC).variance_A = 0 ∧
      (estimate s fifoA fifoB fifoC).variance_B = 0 ∧
      (estimate s fifoA fifoB fifoC).variance_C = 0) := by
  obtain ⟨_, _, ⟨d1, d2, d3⟩, ⟨v1, v2, v3⟩⟩ := estimate_spec s fifoA fifoB fifoC
  rw [distance_of_empty fifoA _ hA] at d1 v1
  rw [distance_of_empty fifoB _ hB] at d2 v2
  rw [distance_of_empty fifoC _ hC] at d3 v3
  rw [variance_of_empty fifoA _ hA] at v1
  rw [variance_of_empty fifoB _ hB] at v2
  rw [variance_of_empty fifoC _ hC] at v3
  exact ⟨⟨d1, d2, d3⟩, ⟨v1, v2, v3⟩⟩

/-- C22: with the entries below `MAX_FIFO_SIZE` of the three buffers all zero
and any stored depth, the loops run over indices below the guarded depth,
which is at most `MAX_FIFO_SIZE`; `calculate_distance` yields distance 0 for
every channel, and `calculate_variance` (after `calculate_distance`, or alone
while the cached distance of A or C is still 0 as at power-on) yields distance
0 and variance 0 for every channel. -/
theorem c22_estimate_on_empty_buffers (s : CmdState) (fifoA fifoB fifoC : Fifo)
    (hA : ∀ i, i < MAX_FIFO_SIZE → fifoA i = 0)
    (hB : ∀ i, i < MAX_FIFO_SIZE → fifoB i = 0)
    (hC : ∀ i, i < MAX_FIFO_SIZE → fifoC i = 0) :
    ASSERT (readEeprom s.eeprom TC_AVG) ≤ MAX_FIFO_SIZE ∧
    ((calculate_distance s fifoA fifoB fifoC).g_distance_A = 0 ∧
      (calculate_distance s fifoA fifoB fifoC).g_distance_B = 0 ∧
      (calculate_distance s fifoA fifoB fifoC).g_distance_C = 0) ∧
    ((estimate s fifoA fifoB fifoC).variance_A = 0 ∧
      (estimate s fifoA fifoB fifoC).variance_B = 0 ∧
      (estimate s fifoA fifoB fifoC).variance_C = 0) ∧
    ((s.g_distance_A = 0 ∨ s.g_distance_C = 0) →
      ((calculate_variance s fifoA fifoB fifoC).state.g_distance_A = 0 ∧
        (calculate_variance s fifoA fifoB fifoC).state.g_distance_B = 0 ∧
        (calculate_variance s fifoA fifoB fifoC).state.g_distance_C = 0) ∧
      ((calculate_variance s fifoA fifoB fifoC).variance_A = 0 ∧
        (calculate_variance s fifoA fifoB fifoC).variance_B = 0 ∧
        (calculate_variance s fifoA fifoB fifoC).variance_C = 0)) := by
  have he := estimate_of_empty s fifoA fifoB fifoC hA hB hC
  refine ⟨ASSERT_le_fifo_size _, ⟨?_, ?_, ?_⟩, he.2, ?_⟩
  · exact distance_of_empty fifoA _ hA
  · exact distance_of_empty fifoB _ hB
  · exact distance_of_empty fifoC _ hC
  · intro h
    have hc : s.g_distance_A = 0 ∨ s.g_distance_C = 0 ∨ s.g_distance_C = 0 := by
      rcases h with h | h
      · exact Or.inl h
      · exact Or.inr (Or.inl h)
    rw [calculate_variance_of_unset s fifoA fifoB fifoC hc]
    exact he

/-- Witness for C22: the power-on state over an all-zero store. -/
theorem c22_estimate_on_empty_buffers_witness :
    (∀ i, i < MAX_FIFO_SIZE → constFifo 0 i = 0) ∧
    ((calculate_distance (powerOn (storeOf 0 0 0 0 0)) (constFifo 0) (constFifo 0)
        (constFifo 0)).g_distance_A = 0 ∧
      (calculate_distance (powerOn (storeOf 0 0 0 0 0)) (constFifo 0) (constFifo 0)
        (constFifo 0)).g_distance_B = 0 ∧
      (calculate_distance (powerOn (storeOf 0 0 0 0 0)) (constFifo 0) (constFifo 0)
        (constFifo 0)).g_distance_C = 0) ∧
    ((estimate (powerOn (storeOf 0 0 0 0 0)) (constFifo 0) (constFifo 0)
        (constFifo 0)).variance_A = 0 ∧
      (estimate (powerOn (storeOf 0 0 0 0 0)) (constFifo 0) (constFifo 0)
        (constFifo 0)).variance_B = 0 ∧
      (estimate (powerOn (storeOf 0 0 0 0 0)) (constFifo 0) (constFifo 0)
        (constFifo 0)).variance_C = 0) :=
  have h := c22_estimate_on_empty_buffers (powerOn (storeOf 0 0 0 0 0)) (constFifo 0)
    (constFifo 0) (constFifo 0) (fun _ _ => rfl) (fun _ _ => rfl) (fun _ _ => rfl)
  ⟨fun _ _ => rfl, h.2.1, h.2.2.1⟩

/-- The cached distances after `calculate_variance`: recomputed from the
buffers when the cached distance of A or C is 0, kept otherwise. -/
theorem calculate_variance_distances (s : CmdState) (fifoA fifoB fifoC : Fifo) :
    (calculate_variance s fifoA fifoB fifoC).state.g_distance_A
      = (if s.g_distance_A = 0 ∨ s.g_distance_C = 0 ∨ s.g_distance_C = 0 then
          truncU32 (sumLoop fifoA (ASSERT (readEeprom s.eeprom TC_AVG))
            / ((ASSERT (readEeprom s.eeprom TC_AVG) : Nat) : ℚ) * CONVERSION_CONSTANT)
        else s.g_distance_A) ∧
    (calculate_variance s fifoA fifoB fifoC).state.g_distance_B
      = (if s.g_distance_A = 0 ∨ s.g_distance_C = 0 ∨ s.g_distance_C = 0 then
          truncU32 (sumLoop fifoB (ASSERT (readEeprom s.eeprom TC_AVG))
            / ((ASSERT (readEeprom s.eeprom TC_AVG) : Nat) : ℚ) * CONVERSION_CONSTANT)
        else s.g_distance_B) ∧
    (calculate_variance s fifoA fifoB fifoC).state.g_distance_C
      = (if s.g_distance_A = 0 ∨ s.g_distance_C = 0 ∨ s.g_distance_C = 0 then
          truncU32 (sumLoop fifoC (ASSERT (readEeprom s.eeprom TC_AVG))
            / ((ASSERT (readEeprom s.eeprom TC_AVG) : Nat) : ℚ) * CONVERSION_CONSTANT)
        else s.g_distance_C) := by
  unfold calculate_variance
  simp only []
  by_cases hc : s.g_distance_A = 0 ∨ s.g_distance_C = 0 ∨ s.g_distance_C = 0
  · simp only [if_pos hc]
    refine ⟨?_, ?_, ?_⟩ <;> split_ifs <;> rfl
  · simp only [if_neg hc]
    refine ⟨?_, ?_, ?_⟩ <;> split_ifs <;> rfl

/-- C23 (counterexample): over the same store (depth 2) and the same buffers
(A noisy, B and C steady) the power-on state and `acceptedRunState` give
different variances for channel A (73530625 against 141296449) and different
flags afterwards (false against true). -/
theorem c23_result_depends_on_prior_state :
    (powerOn (storeOf 0 0 0 0 2)).eeprom = acceptedRunState.eeprom ∧
    (calculate_variance (powerOn (storeOf 0 0 0 0 2)) noisyFifo (constFifo 40000)
      (constFifo 40000)).variance_A = 73530625 ∧
    (calculate_variance acceptedRunState noisyFifo (constFifo 40000)
      (constFifo 40000)).variance_A = 141296449 ∧
    (calculate_variance (powerOn (storeOf 0 0 0 0 2)) noisyFifo (constFifo 40000)
      (constFifo 40000)).state.g_values_acceptable = false ∧
    (calculate_variance acceptedRunState noisyFifo (constFifo 40000)
      (constFifo 40000)).state.g_values_acceptable = true := by
  have hN : ASSERT (readEeprom (storeOf 0 0 0 0 2) TC_AVG) = 2 := by decide
  have hN2 : ASSERT (readEeprom acceptedRunState.eeprom TC_AVG) = 2 := by decide
  have hN3 : ASSERT (readEeprom (powerOn (storeOf 0 0 0 0 2)).eeprom TC_AVG) = 2 := by decide
  -- the run from power-on recomputes the distances
  obtain ⟨pA, pB, pC⟩ := calculate_variance_divides_by_guarded_depth
    (powerOn (storeOf 0 0 0 0 2)) noisyFifo (constFifo 40000) (constFifo 40000)
  obtain ⟨qA, qB, qC⟩ := calculate_variance_distances
    (powerOn (storeOf 0 0 0 0 2)) noisyFifo (constFifo 40000) (constFifo 40000)
  have hc : (powerOn (storeOf 0 0 0 0 2)).g_distance_A = 0 ∨
      (powerOn (storeOf 0 0 0 0 2)).g_distance_C = 0 ∨
      (powerOn (storeOf 0 0 0 0 2)).g_distance_C = 0 := Or.inl rfl
  rw [if_pos hc, hN3] at qA qB qC
  have dA : truncU32 (sumLoop noisyFifo 2 / ((2 : Nat) : ℚ) * CONVERSION_CONSTANT) = 8575 := by
    have : sumLoop noisyFifo 2 / ((2 : Nat) : ℚ) * CONVERSION_CONSTANT = ((8575 : Nat) : ℚ) := by
      norm_num [sumLoop, noisyFifo, CONVERSION_CONSTANT]
    rw [this, truncU32_eq_floor, Nat.floor_natCast]
  have dB : truncU32 (sumLoop (constFifo 40000) 2 / ((2 : Nat) : ℚ) * CONVERSION_CONSTANT)
      = 343 := by
    have : sumLoop (constFifo 40000) 2 / ((2 : Nat) : ℚ) * CONVERSION_CONSTANT
        = ((343 : Nat) : ℚ) := by
      norm_num [sumLoop, constFifo, CONVERSION_CONSTANT]
    rw [this, truncU32_eq_floor, Nat.floor_natCast]
  rw [dA] at qA
  rw [dB] at qB qC
  rw [qA, hN3] at pA
  rw [qB, hN3] at pB
  rw [qC, hN3] at pC
  have eA : (calculate_variance (powerOn (storeOf 0 0 0 0 2)) noisyFifo (constFifo 40000)
      (constFifo 40000)).variance_A = 73530625 := by
    rw [pA]; norm_num [numeratorLoop, noisyFifo, CONVERSION_CONSTANT]
  have eB : (calculate_variance (powerOn (storeOf 0 0 0 0 2)) noisyFifo (constFifo 40000)
      (constFifo 40000)).variance_B = 0 := by
    rw [pB]; norm_num [numeratorLoop, constFifo, CONVERSION_CONSTANT]
  have eC : (calculate_variance (powerOn (storeOf 0 0 0 0 2)) noisyFifo (constFifo 40000)
      (constFifo 40000)).variance_C = 0 := by
    rw [pC]; norm_num [numeratorLoop, constFifo, CONVERSION_CONSTANT]
  -- the run from the accepted state keeps the cached distances
  obtain ⟨vA, _, _, _⟩ := calculate_variance_cached acceptedRunState noisyFifo
    (constFifo 40000) (constFifo 40000) (by decide) (by decide)
  rw [hN2] at vA
  refine ⟨rfl, eA, ?_, ?_, ?_⟩
  · rw [vA]
    norm_num [numeratorLoop, noisyFifo, acceptedRunState, CONVERSION_CONSTANT]
  · rw [calculate_variance_flag, eA, eB, eC]
    norm_num [varianceGate, powerOn]
  · rw [calculate_variance_flag]
    rfl

/-- C23 (amended): two prior states that agree on the stored depth and on the
cached distances give, on the same buffers, the same three variances and the
same cached distances afterwards, whatever their cached averages; the flags
left agree when the prior flags agree. -/
theorem c23_same_cache_same_variances (s1 s2 : CmdState) (fifoA fifoB fifoC : Fifo)
    (hdepth : readEeprom s1.eeprom TC_AVG = readEeprom s2.eeprom TC_AVG)
    (hA : s1.g_distance_A = s2.g_distance_A) (hB : s1.g_distance_B = s2.g_distance_B)
    (hC : s1.g_distance_C = s2.g_distance_C) :
    ((calculate_variance s1 fifoA fifoB fifoC).variance_A
        = (calculate_variance s2 fifoA fifoB fifoC).variance_A ∧
      (calculate_variance s1 fifoA fifoB fifoC).variance_B
        = (calculate_variance s2 fifoA fifoB fifoC).variance_B ∧
      (calculate_variance s1 fifoA fifoB fifoC).variance_C
        = (calculate_variance s2 fifoA fifoB fifoC).variance_C) ∧
    ((calculate_variance s1 fifoA fifoB fifoC).state.g_distance_A
        = (calculate_variance s2 fifoA fifoB fifoC).state.g_distance_A ∧
      (calculate_variance s1 fifoA fifoB fifoC).state.g_distance_B
        = (calculate_variance s2 fifoA fifoB fifoC).state.g_distance_B ∧
      (calculate_variance s1 fifoA fifoB fifoC).state.g_distance_C
        = (calculate_variance s2 fifoA fifoB fifoC).state.g_distance_C) ∧
    (s1.g_values_acceptable = s2.g_values_acceptable →
      (calculate_variance s1 fifoA fifoB fifoC).state.g_values_acceptable
        = (calculate_variance s2 fifoA fifoB fifoC).state.g_values_acceptable) := by
  obtain ⟨p1, p2, p3⟩ := calculate_variance_divides_by_guarded_depth s1 fifoA fifoB fifoC
  obtain ⟨q1, q2, q3⟩ := calculate_variance_divides_by_guarded_depth s2 fifoA fifoB fifoC
  obtain ⟨d1, d2, d3⟩ := calculate_variance_distances s1 fifoA fifoB fifoC
  obtain ⟨e1, e2, e3⟩ := calculate_variance_distances s2 fifoA fifoB fifoC
  simp only [hdepth, hA, hB, hC] at d1 d2 d3
  have dA := d1.trans e1.symm
  have dB := d2.trans e2.symm
  have dC := d3.trans e3.symm
  have vA := p1.trans (by rw [dA, hdepth, ← q1])
  have vB := p2.trans (by rw [dB, hdepth, ← q2])
  have vC := p3.trans (by rw [dC, hdepth, ← q3])
  refine ⟨⟨vA, vB, vC⟩, ⟨dA, dB, dC⟩, ?_⟩
  intro hf
  rw [calculate_variance_flag s1, calculate_variance_flag s2, vA, vB, vC, hf]

/-- Witness for C23 (amended): `acceptedRunState` and the same state with the
cached averages cleared. -/
theorem c23_same_cache_same_variances_witness :
    readEeprom ({ acceptedRunState with g_average_A := 0 } : CmdState).eeprom TC_AVG
      = readEeprom acceptedRunState.eeprom TC_AVG ∧
    (calculate_variance { acceptedRunState with g_average_A := 0 } noisyFifo (constFifo 40000)
        (constFifo 40000)).variance_A
      = (calculate_variance acceptedRunState noisyFifo (constFifo 40000)
        (constFifo 40000)).variance_A :=
  have h := c23_same_cache_same_variances { acceptedRunState with g_average_A := 0 }
    acceptedRunState noisyFifo (constFifo 40000) (constFifo 40000) rfl rfl rfl rfl
  ⟨rfl, h.1.1⟩

/-- C26: on accepted estimates the values `x` and `y` computed before the fix
is subtracted are the numerators `D² + d_B² − d_X²` reduced modulo `2³²`
(unsigned 32-bit arithmetic) and divided by `2·D`; they are never negative. -/
theorem c26_unsigned_numerators (s : CmdState) (hacc : s.g_values_acceptable = true) :
    calculate_coordinates s = CoordReport.position
      ((geometryD2 s.eeprom * geometryD2 s.eeprom + (s.g_distance_B : Int) * s.g_distance_B
          - (s.g_distance_C : Int) * s.g_distance_C) % 2 ^ 32 / (2 * geometryD2 s.eeprom)
        - (readEeprom s.eeprom FIX_X : Int))
      ((geometryD1 s.eeprom * geometryD1 s.eeprom + (s.g_distance_B : Int) * s.g_distance_B
          - (s.g_distance_A : Int) * s.g_distance_A) % 2 ^ 32 / (2 * geometryD1 s.eeprom)
        - (readEeprom s.eeprom FIX_Y : Int)) ∧
    0 ≤ (geometryD2 s.eeprom * geometryD2 s.eeprom + (s.g_distance_B : Int) * s.g_distance_B
          - (s.g_distance_C : Int) * s.g_distance_C) % 2 ^ 32 / (2 * geometryD2 s.eeprom) ∧
    0 ≤ (geometryD1 s.eeprom * geometryD1 s.eeprom + (s.g_distance_B : Int) * s.g_distance_B
          - (s.g_distance_A : Int) * s.g_distance_A) % 2 ^ 32 / (2 * geometryD1 s.eeprom) := by
  have h1 := geometryD1_range s.eeprom
  have h2 := geometryD2_range s.eeprom
  have ey := solveAxis_eq (geometryD1 s.eeprom) ⟨h1.1, by omega⟩ s.g_distance_B s.g_distance_A
  have ex := solveAxis_eq (geometryD2 s.eeprom) h2 s.g_distance_B s.g_distance_C
  refine ⟨?_, ?_, ?_⟩
  · rw [calculate_coordinates_of_acceptable s hacc, ey, ex]
  · rw [← ex]; exact Int.natCast_nonneg _
  · rw [← ey]; exact Int.natCast_nonneg _

/-- Witness for C26: geometry `D1 = 200` with `d_A = 300`, `d_B = 100`, where
`D1² + d_B² − d_A²` is negative. -/
theorem c26_unsigned_numerators_witness :
    negativeNumeratorState.g_values_acceptable = true ∧
    calculate_coordinates negativeNumeratorState = CoordReport.position
      ((geometryD2 negativeNumeratorState.eeprom * geometryD2 negativeNumeratorState.eeprom
          + (negativeNumeratorState.g_distance_B : Int) * negativeNumeratorState.g_distance_B
          - (negativeNumeratorState.g_distance_C : Int) * negativeNumeratorState.g_distance_C)
          % 2 ^ 32 / (2 * geometryD2 negativeNumeratorState.eeprom)
        - (readEeprom negativeNumeratorState.eeprom FIX_X : Int))
      ((geometryD1 negativeNumeratorState.eeprom * geometryD1 negativeNumeratorState.eeprom
          + (negativeNumeratorState.g_distance_B : Int) * negativeNumeratorState.g_distance_B
          - (negativeNumeratorState.g_distance_A : Int) * negativeNumeratorState.g_distance_A)
          % 2 ^ 32 / (2 * geometryD1 negativeNumeratorState.eeprom)
        - (readEeprom negativeNumeratorState.eeprom FIX_Y : Int)) :=
  ⟨rfl, (c26_unsigned_numerators negativeNumeratorState rfl).1⟩

set_option maxRecDepth 20000

/-- C27 (failing input): for the buffer `12345678901` followed by NUL
characters `string_parse` finishes with `count = 11`, above `MAX_FIELDS`, and
its eleventh field is written at index 10 of the position and type arrays
(position 10, type `n`), beyond their last index 9. -/
theorem c27_digits_overrun_field_arrays :
    (string_parse (inputOf elevenDigits)).count = 11 ∧
    ¬ ((string_parse (inputOf elevenDigits)).count ≤ MAX_FIELDS) ∧
    (inputOf elevenDigits).position 10 = 0 ∧ (inputOf elevenDigits).type 10 = 0 ∧
    (string_parse (inputOf elevenDigits)).position 10 = 10 ∧
    (string_parse (inputOf elevenDigits)).type 10 = 110 := by
  decide

/-- One iteration on a character that is not a digit keeps a count that is at
most 10 at most 10: the branch for letters tests `count < 10`. -/
theorem parse_step_count_le (st : ParseState) (i : Nat)
    (hd : ASSERT_NUMBER (st.data.input_string i) = false) (hc : st.data.count ≤ 10) :
    (parse_step st i).data.count ≤ 10 := by
  unfold parse_step
  rw [hd]
  by_cases ha : ASSERT_ALPHABET (st.data.input_string i) = true
  · rw [if_pos ha]
    by_cases hg : (st.delimiter_flag && decide (st.data.count < 10)) = true
    · rw [if_pos hg]
      simp only [Bool.and_eq_true, decide_eq_true_eq] at hg
      show (st.data.count + 1) % 256 ≤ 10
      omega
    · rw [if_neg hg]
      exact hc
  · rw [if_neg ha]
    simp only [Bool.false_eq_true, if_false]
    exact hc

/-- One iteration keeps a buffer free of digits free of digits. -/
theorem parse_step_no_digit (st : ParseState) (i : Nat)
    (hd : ∀ k, ASSERT_NUMBER (st.data.input_string k) = false) :
    ∀ k, ASSERT_NUMBER ((parse_step st i).data.input_string k) = false := by
  intro k
  unfold parse_step
  rw [hd i]
  by_cases ha : ASSERT_ALPHABET (st.data.input_string i) = true
  · rw [if_pos ha]
    split_ifs
    · exact hd k
    · exact hd k
  · rw [if_neg ha]
    simp only [Bool.false_eq_true, if_false]
    by_cases hk : k = i
    · subst hk
      simp [Function.update_same, ASSERT_NUMBER]
    · rw [Function.update_noteq hk]
      exact hd k

/-- The loop of `string_parse` on a buffer without digits keeps `count ≤ 10`. -/
theorem parse_loop_count_le (l : List Nat) :
    ∀ st : ParseState, (∀ k, ASSERT_NUMBER (st.data.input_string k) = false) →
      st.data.count ≤ 10 → (l.foldl parse_step st).data.count ≤ 10 := by
  induction l with
  | nil => intro st _ hc; exact hc
  | cons i l ih =>
    intro st hd hc
    rw [List.foldl_cons]
    exact ih (parse_step st i) (parse_step_no_digit st i hd) (parse_step_count_le st i (hd i) hc)

/-- On a buffer without digits `string_parse` finishes with
`count ≤ MAX_FIELDS`. -/
theorem string_parse_count_le_without_digits (user_data : string_data_t)
    (hd : ∀ k, ASSERT_NUMBER (user_data.input_string k) = false) :
    (string_parse user_data).count ≤ MAX_FIELDS := by
  unfold string_parse MAX_FIELDS
  exact parse_loop_count_le _ _ hd (Nat.zero_le _)

/-- C28 (failing input): for the line `sensor A 10 20` `string_parse` records
six fields, not four, at the positions 0, 7, 9, 10, 12 and 13: one per letter
run and one per digit; field 2 reads as 10 and field 3 as 0, not 20. -/
theorem c28_one_field_per_digit :
    (string_parse (inputOf sensorLine)).count = 6 ∧
    (string_parse (inputOf sensorLine)).count ≠ 4 ∧
    ((string_parse (inputOf sensorLine)).position 0 = 0 ∧
      (string_parse (inputOf sensorLine)).position 1 = 7 ∧
      (string_parse (inputOf sensorLine)).position 2 = 9 ∧
      (string_parse (inputOf sensorLine)).position 3 = 10 ∧
      (string_parse (inputOf sensorLine)).position 4 = 12 ∧
      (string_parse (inputOf sensorLine)).position 5 = 13) ∧
    getFieldInteger (string_parse (inputOf sensorLine)) 2 = 10 ∧
    getFieldInteger (string_parse (inputOf sensorLine)) 3 = 0 ∧
    getFieldInteger (string_parse (inputOf sensorLine)) 3 ≠ 20 := by
  decide

/-- C29: from power-on, with the entries below `MAX_FIFO_SIZE` of the three
buffers all zero, `calculate_variance` prints three variances equal to 0 and
sets the acceptability flag, and the following `calculate_coordinates`
reports the position `(D2/2 − fix_x, D1/2 − fix_y)` with truncating division;
over the all-zero store this is `(150, 100)`. -/
theorem c29_position_without_samples (e : Eeprom) (fifoA fifoB fifoC : Fifo)
    (hA : ∀ i, i < MAX_FIFO_SIZE → fifoA i = 0)
    (hB : ∀ i, i < MAX_FIFO_SIZE → fifoB i = 0)
    (hC : ∀ i, i < MAX_FIFO_SIZE → fifoC i = 0) :
    ((calculate_variance (powerOn e) fifoA fifoB fifoC).variance_A = 0 ∧
      (calculate_variance (powerOn e) fifoA fifoB fifoC).variance_B = 0 ∧
      (calculate_variance (powerOn e) fifoA fifoB fifoC).variance_C = 0) ∧
    (calculate_variance (powerOn e) fifoA fifoB fifoC).state.g_values_acceptable = true ∧
    calculate_coordinates (calculate_variance (powerOn e) fifoA fifoB fifoC).state
      = CoordReport.position (geometryD2 e / 2 - (readEeprom e FIX_X : Int))
          (geometryD1 e / 2 - (readEeprom e FIX_Y : Int)) ∧
    (geometryD2 (storeOf 0 0 0 0 0) / 2 - (readEeprom (storeOf 0 0 0 0 0) FIX_X : Int) = 150 ∧
      geometryD1 (storeOf 0 0 0 0 0) / 2 - (readEeprom (storeOf 0 0 0 0 0) FIX_Y : Int) = 100) := by
  have hc : (powerOn e).g_distance_A = 0 ∨ (powerOn e).g_distance_C = 0 ∨
      (powerOn e).g_distance_C = 0 := Or.inl rfl
  have hrun := calculate_variance_of_unset (powerOn e) fifoA fifoB fifoC hc
  obtain ⟨⟨d1, d2, d3⟩, ⟨v1, v2, v3⟩⟩ := estimate_of_empty (powerOn e) fifoA fifoB fifoC hA hB hC
  obtain ⟨he, _, _, _⟩ := estimate_spec (powerOn e) fifoA fifoB fifoC
  rw [← hrun] at d1 d2 d3 v1 v2 v3 he
  have hflag : (calculate_variance (powerOn e) fifoA fifoB fifoC).state.g_values_acceptable
      = true := by
    rw [calculate_variance_flag, v1, v2, v3]
    norm_num [varianceGate]
  have h1 := geometryD1_range e
  have h2 := geometryD2_range e
  have he2 : (calculate_variance (powerOn e) fifoA fifoB fifoC).state.eeprom = e := he
  refine ⟨⟨v1, v2, v3⟩, hflag, ?_, by decide, by decide⟩
  rw [calculate_coordinates_of_acceptable _ hflag, d1, d2, d3, he2,
    solveAxis_eq _ ⟨h1.1, by omega⟩, solveAxis_eq _ h2]
  have ey : (geometryD1 e * geometryD1 e + ((0 : Nat) : Int) * ((0 : Nat) : Int)
      - ((0 : Nat) : Int) * ((0 : Nat) : Int)) % 2 ^ 32 / (2 * geometryD1 e) = geometryD1 e / 2 := by
    have hlt : geometryD1 e * geometryD1 e < 2 ^ 32 := by nlinarith
    have hnn : 0 ≤ geometryD1 e * geometryD1 e := by nlinarith
    simp only [Nat.cast_zero, mul_zero, add_zero, sub_zero]
    rw [Int.emod_eq_of_lt hnn hlt, Int.mul_ediv_mul_of_pos_left _ _ (by omega)]
  have ex : (geometryD2 e * geometryD2 e + ((0 : Nat) : Int) * ((0 : Nat) : Int)
      - ((0 : Nat) : Int) * ((0 : Nat) : Int)) % 2 ^ 32 / (2 * geometryD2 e) = geometryD2 e / 2 := by
    have hlt : geometryD2 e * geometryD2 e < 2 ^ 32 := by nlinarith
    have hnn : 0 ≤ geometryD2 e * geometryD2 e := by nlinarith
    simp only [Nat.cast_zero, mul_zero, add_zero, sub_zero]
    rw [Int.emod_eq_of_lt hnn hlt, Int.mul_ediv_mul_of_pos_left _ _ (by omega)]
  rw [ex, ey]

/-- Witness for C29: the all-zero store and all-zero buffers. -/
theorem c29_position_without_samples_witness :
    (∀ i, i < MAX_FIFO_SIZE → constFifo 0 i = 0) ∧
    (calculate_variance (powerOn (storeOf 0 0 0 0 0)) (constFifo 0) (constFifo 0)
      (constFifo 0)).state.g_values_acceptable = true ∧
    calculate_coordinates (calculate_variance (powerOn (storeOf 0 0 0 0 0)) (constFifo 0)
      (constFifo 0) (constFifo 0)).state = CoordReport.position 150 100 := by
  have h := c29_position_without_samples (storeOf 0 0 0 0 0) (constFifo 0) (constFifo 0)
    (constFifo 0) (fun _ _ => rfl) (fun _ _ => rfl) (fun _ _ => rfl)
  refine ⟨fun _ _ => rfl, h.2.1, ?_⟩
  rw [h.2.2.1, h.2.2.2.1, h.2.2.2.2]

/-- The function `ftoa` with a fraction length of 0 on an integer value writes
what `intToStr` writes for that integer with `digits = 0`. -/
theorem ftoa_of_int (z : Int) (destination : Nat → Nat) :
    ftoa (z : ℚ) destination 0 = (intToStr z destination 0).1 := by
  have h : truncInt (z : ℚ) = z := by
    unfold truncInt
    split_ifs
    · exact Int.floor_intCast z
    · exact Int.ceil_intCast z
  unfold ftoa
  simp only [h, ne_eq, not_true_eq_false, if_false]

/-- C30 (failing input): `intToStr(0, str, 0)` writes the empty string and
returns 0, not the string `0`; this is the call `ftoa` makes for a coordinate
equal to 0, such as the `x` reported for `belowAxisState`. -/
theorem c30_zero_written_as_empty_string :
    (intToStr 0 blankText 0).2 = 0 ∧
    (intToStr 0 blankText 0).1 0 = 0 ∧
    cString (intToStr 0 blankText 0).1 20 0 = [] ∧
    cString (intToStr 0 blankText 0).1 20 0 ≠ [48] ∧
    cString (ftoa ((0 : Int) : ℚ) blankText 0) 20 0 = [] ∧
    calculate_coordinates belowAxisState = CoordReport.position 0 21474786 := by
  refine ⟨by decide, by decide, by decide, by decide, ?_, by decide⟩
  rw [ftoa_of_int]
  decide

/-- A character map overridden on an empty range of indices is unchanged. -/
theorem override_empty_range (str : Nat → Nat) (i v : Nat) :
    str = fun k => if i ≤ k ∧ k < i then v else str k := by
  funext k
  have c : ¬ (i ≤ k ∧ k < i) := by omega
  rw [if_neg c]

/-- The first loop of `intToStr` on a number `n ≥ 0` with enough fuel: the
decimal digits of `n`, least significant first, are stored from index `i`. -/
theorem intToStr_digits_spec :
    ∀ (fuel n : Nat) (str : Nat → Nat) (i : Nat), n ≤ fuel →
      intToStr_digits fuel (n : Int) str i =
        (fun k => if i ≤ k ∧ k < i + (Nat.digits 10 n).length then
            48 + (Nat.digits 10 n).getD (k - i) 0 else str k,
          i + (Nat.digits 10 n).length) := by
  intro fuel
  induction fuel with
  | zero =>
    intro n str i hn
    have h0 : n = 0 := Nat.le_zero.1 hn
    subst h0
    simp [intToStr_digits]
    exact override_empty_range str i 48
  | succ f ih =>
    intro n str i hn
    by_cases h0 : n = 0
    · subst h0
      simp [intToStr_digits]
      exact override_empty_range str i 48
    · have hpos : 0 < n := Nat.pos_of_ne_zero h0
      have hne : ((n : Nat) : Int) ≠ 0 := by exact_mod_cast h0
      have hdiv : n / 10 ≤ f := by omega
      have hchar : (Int.tmod (n : Int) 10 + 48).toNat = n % 10 + 48 := by
        have : Int.tmod (n : Int) 10 = ((n % 10 : Nat) : Int) := (Int.ofNat_tmod n 10).symm
        rw [this]
        omega
      have hq : Int.tdiv (n : Int) 10 = ((n / 10 : Nat) : Int) := (Int.ofNat_tdiv n 10).symm
      rw [intToStr_digits, if_neg hne, hq, hchar, ih (n / 10) _ (i + 1) hdiv,
        Nat.digits_def' (by norm_num : 1 < 10) hpos]
      refine Prod.ext ?_ ?_
      · funext k
        simp only [List.length_cons]
        by_cases hk : k = i
        · subst hk
          have c1 : ¬ (k + 1 ≤ k ∧ k < k + 1 + (Nat.digits 10 (n / 10)).length) := by omega
          have c2 : k ≤ k ∧ k < k + ((Nat.digits 10 (n / 10)).length + 1) := by omega
          rw [if_neg c1, if_pos c2, Function.update_same, Nat.sub_self]
          simp
          omega
        · by_cases hr : i + 1 ≤ k ∧ k < i + 1 + (Nat.digits 10 (n / 10)).length
          · have c2 : i ≤ k ∧ k < i + ((Nat.digits 10 (n / 10)).length + 1) := by omega
            rw [if_pos hr, if_pos c2]
            have e : k - i = (k - (i + 1)) + 1 := by omega
            rw [e]
            simp
          · have c2 : ¬ (i ≤ k ∧ k < i + ((Nat.digits 10 (n / 10)).length + 1)) := by omega
            rw [if_neg hr, if_neg c2, Function.update_noteq hk]
      · simp only [List.length_cons]
        omega

/-- The padding loop of `intToStr`: `k` characters `0` are stored from
index `i`. -/
theorem intToStr_pad_spec :
    ∀ (k : Nat) (str : Nat → Nat) (i : Nat),
      intToStr_pad k str i = (fun j => if i ≤ j ∧ j < i + k then 48 else str j, i + k) := by
  intro k
  induction k with
  | zero =>
    intro str i
    simp [intToStr_pad]
    exact override_empty_range str i 48
  | succ m ih =>
    intro str i
    rw [intToStr_pad, ih]
    refine Prod.ext ?_ ?_
    · funext j
      by_cases hj : j = i
      · subst hj
        have c1 : ¬ (j + 1 ≤ j ∧ j < j + 1 + m) := by omega
        have c2 : j ≤ j ∧ j < j + (m + 1) := by omega
        simp only [if_neg c1, if_pos c2, Function.update_same]
      · by_cases hr : i + 1 ≤ j ∧ j < i + 1 + m
        · have c2 : i ≤ j ∧ j < i + (m + 1) := by omega
          simp only [if_pos hr, if_pos c2]
        · have c2 : ¬ (i ≤ j ∧ j < i + (m + 1)) := by omega
          simp only [if_neg hr, if_neg c2, Function.update_noteq hj]
    · show i + 1 + m = i + (m + 1)
      omega

/-- The loop of `reverse` with enough fuel mirrors the characters between the
indices `i` and `j` and leaves the others. -/
theorem reverse_loop_spec :
    ∀ (fuel : Nat) (str : Nat → Nat) (i j : Nat), j + 1 ≤ i + 2 * fuel →
      reverse_loop fuel str (i : Int) (j : Int) =
        fun k => if i ≤ k ∧ k ≤ j then str (i + j - k) else str k := by
  intro fuel
  induction fuel with
  | zero =>
    intro str i j h
    funext k
    have c : ¬ (i ≤ k ∧ k ≤ j) := by omega
    simp only [reverse_loop, if_neg c]
  | succ f ih =>
    intro str i j h
    by_cases hij : i < j
    · have hlt : (i : Int) < (j : Int) := by exact_mod_cast hij
      have e1 : (i : Int) + 1 = ((i + 1 : Nat) : Int) := by push_cast; ring
      have e2 : (j : Int) - 1 = ((j - 1 : Nat) : Int) := by omega
      rw [reverse_loop, if_pos hlt, e1, e2, ih _ (i + 1) (j - 1) (by omega)]
      funext k
      simp only [Int.toNat_ofNat]
      by_cases hk1 : k = i
      · subst hk1
        have c1 : ¬ (k + 1 ≤ k ∧ k ≤ j - 1) := by omega
        have c2 : k ≤ k ∧ k ≤ j := by omega
        have hne : k ≠ j := by omega
        rw [if_neg c1, if_pos c2, Function.update_noteq hne, Function.update_same]
        congr 1
        omega
      · by_cases hk2 : k = j
        · subst hk2
          have c1 : ¬ (i + 1 ≤ k ∧ k ≤ k - 1) := by omega
          have c2 : i ≤ k ∧ k ≤ k := by omega
          rw [if_neg c1, if_pos c2, Function.update_same]
          congr 1
          omega
        · by_cases hr : i + 1 ≤ k ∧ k ≤ j - 1
          · have c2 : i ≤ k ∧ k ≤ j := by omega
            have n1 : i + 1 + (j - 1) - k ≠ j := by omega
            have n2 : i + 1 + (j - 1) - k ≠ i := by omega
            rw [if_pos hr, if_pos c2, Function.update_noteq n1, Function.update_noteq n2]
            congr 1
            omega
          · have c2 : ¬ (i ≤ k ∧ k ≤ j) := by omega
            rw [if_neg hr, if_neg c2, Function.update_noteq hk2, Function.update_noteq hk1]
    · have hlt : ¬ ((i : Int) < (j : Int)) := by exact_mod_cast hij
      rw [reverse_loop, if_neg hlt]
      funext k
      by_cases hr : i ≤ k ∧ k ≤ j
      · rw [if_pos hr]
        congr 1
        omega
      · rw [if_neg hr]

/-- The function `reverse(str, len)` mirrors the first `len` characters. -/
theorem reverse_spec (str : Nat → Nat) (len : Nat) :
    reverse str len = fun k => if k < len then str (len - 1 - k) else str k := by
  unfold reverse
  cases len with
  | zero =>
    funext k
    simp [reverse_loop]
  | succ m =>
    have e : (((m + 1 : Nat) : Int) - 1) = ((m : Nat) : Int) := by push_cast; ring
    have z : (0 : Int) = ((0 : Nat) : Int) := rfl
    rw [e, z, reverse_loop_spec (m + 1) str 0 m (by omega)]
    funext k
    by_cases hk : k < m + 1
    · have c : 0 ≤ k ∧ k ≤ m := by omega
      rw [if_pos c, if_pos hk]
      congr 1
      omega
    · have c : ¬ (0 ≤ k ∧ k ≤ m) := by omega
      rw [if_neg c, if_neg hk]

/-- The function `intToStr` on a number `n ≥ 0`: it returns
`max (number of decimal digits of n) digits` (0 digits for `n = 0`), writes at
index `k` below that length the character of the decimal digit of `n` at place
`length − 1 − k` (the character `0` at the places above the digits of `n`),
and writes a NUL at the returned length. -/
theorem intToStr_spec (n digits : Nat) (str : Nat → Nat) :
    (intToStr (n : Int) str (digits : Int)).2 = max (Nat.digits 10 n).length digits ∧
    (∀ k, k < max (Nat.digits 10 n).length digits →
      (intToStr (n : Int) str (digits : Int)).1 k
        = 48 + (Nat.digits 10 n).getD (max (Nat.digits 10 n).length digits - 1 - k) 0) ∧
    (intToStr (n : Int) str (digits : Int)).1 (max (Nat.digits 10 n).length digits) = 0 := by
  have hlen : 0 + (Nat.digits 10 n).length + (digits - (Nat.digits 10 n).length)
      = max (Nat.digits 10 n).length digits := by
    rcases Nat.le_total (Nat.digits 10 n).length digits with h | h
    · rw [max_eq_right h]; omega
    · rw [max_eq_left h]; omega
  have hpad : ((digits : Int) - ((0 + (Nat.digits 10 n).length : Nat) : Int)).toNat
      = digits - (Nat.digits 10 n).length := by omega
  unfold intToStr
  simp only [Int.natAbs_ofNat]
  rw [intToStr_digits_spec n n str 0 (le_refl n)]
  simp only []
  rw [hpad, intToStr_pad_spec]
  simp only []
  rw [hlen, reverse_spec]
  refine ⟨rfl, ?_, ?_⟩
  · intro k hk
    have hne : k ≠ max (Nat.digits 10 n).length digits := by omega
    rw [Function.update_noteq hne, if_pos hk]
    by_cases hj : (Nat.digits 10 n).length ≤ max (Nat.digits 10 n).length digits - 1 - k
    · have c : 0 + (Nat.digits 10 n).length ≤ max (Nat.digits 10 n).length digits - 1 - k ∧
          max (Nat.digits 10 n).length digits - 1 - k < max (Nat.digits 10 n).length digits := by
        omega
      rw [if_pos c, List.getD_eq_default _ _ hj]
    · have c : ¬ (0 + (Nat.digits 10 n).length ≤ max (Nat.digits 10 n).length digits - 1 - k ∧
          max (Nat.digits 10 n).length digits - 1 - k < max (Nat.digits 10 n).length digits) := by
        omega
      have c2 : 0 ≤ max (Nat.digits 10 n).length digits - 1 - k ∧
          max (Nat.digits 10 n).length digits - 1 - k < 0 + (Nat.digits 10 n).length := by
        omega
      rw [if_neg c, if_pos c2, Nat.sub_zero]
  · rw [Function.update_same]


end PenTracker
